import Mathlib

/-
Verification development for the orbital simulation core
(orbitalSim.cpp / orbitalSim.h).

The floating point quantities of the source (float fields, double force
math) are idealized as real numbers.  Body arrays are lists indexed by
naturals; out-of-range reads yield a default record whose isAlive flag is
false, which never occurs in runs where the body count matches the list
length.  The per-tick acceleration buffer is a function from indices to
vectors, updated pointwise exactly where the source writes the array.
-/

namespace OrbitalSimModel

noncomputable section

/-- Three dimensional vector with real components, modelling raylib Vector3. -/
@[ext]
structure Vector3 where
  x : ℝ
  y : ℝ
  z : ℝ

def Vector3.zero : Vector3 := { x := 0, y := 0, z := 0 }

/-- raylib Vector3Add: componentwise sum. -/
def Vector3Add (a b : Vector3) : Vector3 :=
  { x := a.x + b.x, y := a.y + b.y, z := a.z + b.z }

/-- raylib Vector3Subtract: componentwise difference. -/
def Vector3Subtract (a b : Vector3) : Vector3 :=
  { x := a.x - b.x, y := a.y - b.y, z := a.z - b.z }

/-- raylib Vector3Scale: multiply every component by a scalar. -/
def Vector3Scale (v : Vector3) (s : ℝ) : Vector3 :=
  { x := v.x * s, y := v.y * s, z := v.z * s }

/-- raylib Vector3LengthSqr. -/
def Vector3LengthSqr (v : Vector3) : ℝ := v.x * v.x + v.y * v.y + v.z * v.z

/-- raylib Vector3Length. -/
def Vector3Length (v : Vector3) : ℝ := Real.sqrt (Vector3LengthSqr v)

/-- SystemType enumeration of orbitalSim.h. -/
inductive SystemType where
  | solar : SystemType
  | alphaCentauri : SystemType
deriving DecidableEq

/-- EasterEggType enumeration of orbitalSim.h. -/
inductive EasterEggType where
  | none : EasterEggType
  | phi : EasterEggType
  | jupiter1000x : EasterEggType
deriving DecidableEq

/-- DispersionType enumeration of orbitalSim.h. -/
inductive DispersionType where
  | tight : DispersionType
  | normal : DispersionType
  | wide : DispersionType
  | extreme : DispersionType
deriving DecidableEq

/-- Display color, opaque to the physics core; modelled as a tag. -/
def Color : Type := ℕ

/-- OrbitalBody of orbitalSim.h. -/
structure OrbitalBody where
  position : Vector3
  velocity : Vector3
  mass : ℝ
  radius : ℝ
  color : Color
  isAlive : Bool

instance : Inhabited OrbitalBody :=
  ⟨{ position := Vector3.zero, velocity := Vector3.zero, mass := 0, radius := 0,
     color := (0 : ℕ), isAlive := false }⟩

/-- BlackHole of orbitalSim.h. -/
structure BlackHole where
  position : Vector3
  velocity : Vector3
  acceleration : Vector3
  mass : ℝ
  radius : ℝ
  eventHorizonRadius : ℝ
  isActive : Bool
  growthRate : ℝ

/-- SimConfig of orbitalSim.h. -/
structure SimConfig where
  systemType : SystemType
  easterEgg : EasterEggType
  dispersion : DispersionType
  asteroidCount : ℕ

/-- OrbitalSim of orbitalSim.h. -/
structure OrbitalSim where
  timeStep : ℝ
  bodies : List OrbitalBody
  numBodies : ℕ
  systemBodies : ℕ
  asteroidCount : ℕ
  centerRadius : ℝ
  blackHole : BlackHole
  aliveBodies : ℕ
  config : SimConfig

def GRAVITATIONAL_CONSTANT : ℝ := 6.6743e-11

def MIN_DISTANCE_CUBED : ℝ := 1e29

def INFLUENCE_DISTANCE_SQ : ℝ := 1e15

/-- Write one slot of the per-tick acceleration buffer. -/
def storeAcc (acc : ℕ → Vector3) (k : ℕ) (v : Vector3) : ℕ → Vector3 :=
  fun m => if m = k then v else acc m

/-- createBlackHole of orbitalSim.cpp. -/
def createBlackHole (sim : OrbitalSim) (position : Vector3) : OrbitalSim :=
  if sim.blackHole.isActive = true then sim
  else
    { sim with blackHole :=
      { sim.blackHole with
        position := position
        velocity := Vector3.zero
        mass := 10.0 * 1.989e30
        eventHorizonRadius := 2.95 * ((10.0 * 1.989e30) / 1.989e30) * 1e6
        radius := 200.0 * (2.95 * ((10.0 * 1.989e30) / 1.989e30) * 1e6)
        isActive := true
        growthRate := 1e3 } }

/-- Body of the inner loop of step 2 of ComputeGravitationalAccelerations:
the pairwise interaction of system bodies i and j, including the liveness
guard on j. -/
def systemPairStep (bodies : List OrbitalBody) (i j : ℕ) (acc : ℕ → Vector3) :
    ℕ → Vector3 :=
  if (bodies.getD j default).isAlive = false then acc
  else
    let bi := bodies.getD i default
    let bj := bodies.getD j default
    let r_vec := Vector3Subtract bj.position bi.position
    let r_squared := Vector3LengthSqr r_vec
    let r_cubed := r_squared * Real.sqrt r_squared
    if MIN_DISTANCE_CUBED < r_cubed then
      let force_magnitude := GRAVITATIONAL_CONSTANT / r_cubed
      let acc1 := storeAcc acc j
        (Vector3Add (acc j) (Vector3Scale r_vec ((-force_magnitude) * bi.mass)))
      storeAcc acc1 i
        (Vector3Add (acc1 i) (Vector3Scale r_vec (force_magnitude * bj.mass)))
    else
      let force_magnitude := GRAVITATIONAL_CONSTANT / MIN_DISTANCE_CUBED
      let acc1 := storeAcc acc j
        (Vector3Add (acc j) (Vector3Scale r_vec ((-force_magnitude) * bi.mass)))
      storeAcc acc1 i
        (Vector3Add (acc1 i) (Vector3Scale r_vec (force_magnitude * bj.mass)))

/-- Body of the loop of step 3 of ComputeGravitationalAccelerations: primary
star force on body i, followed by the easter egg extra pass, which in the
source recomputes the displacement from bodies[0] and uses the mass of
bodies[0] again. -/
def starAsteroidStep (sim : OrbitalSim) (bodies : List OrbitalBody) (i : ℕ)
    (acc : ℕ → Vector3) : ℕ → Vector3 :=
  if (bodies.getD i default).isAlive = false then acc
  else
    let b0 := bodies.getD 0 default
    let bi := bodies.getD i default
    let r_vec := Vector3Subtract bi.position b0.position
    let r_squared := Vector3LengthSqr r_vec
    let r_cubed := r_squared * Real.sqrt r_squared
    let acc1 :=
      if MIN_DISTANCE_CUBED < r_cubed then
        let force_magnitude := GRAVITATIONAL_CONSTANT * b0.mass / r_cubed
        storeAcc acc i (Vector3Add (acc i) (Vector3Scale r_vec (-force_magnitude)))
      else
        let force_magnitude := GRAVITATIONAL_CONSTANT * b0.mass / MIN_DISTANCE_CUBED
        storeAcc acc i (Vector3Add (acc i) (Vector3Scale r_vec (-force_magnitude)))
    if sim.config.easterEgg = EasterEggType.jupiter1000x then
      if sim.config.systemType = SystemType.solar ∧ 5 < sim.numBodies then
        let r_vec2 := Vector3Subtract bi.position b0.position
        let r_squared2 := Vector3LengthSqr r_vec2
        let r_cubed2 := r_squared2 * Real.sqrt r_squared2
        if MIN_DISTANCE_CUBED < r_cubed2 then
          let force_magnitude := GRAVITATIONAL_CONSTANT * b0.mass / r_cubed2
          storeAcc acc1 i (Vector3Add (acc1 i) (Vector3Scale r_vec2 (-force_magnitude)))
        else
          let force_magnitude := GRAVITATIONAL_CONSTANT * b0.mass / MIN_DISTANCE_CUBED
          storeAcc acc1 i (Vector3Add (acc1 i) (Vector3Scale r_vec2 (-force_magnitude)))
      else acc1
    else acc1

/-- Body of the inner loop of step 4 of ComputeGravitationalAccelerations:
distance gated planet force on asteroid j from system body i. -/
def planetAsteroidStep (bodies : List OrbitalBody) (i j : ℕ) (acc : ℕ → Vector3) :
    ℕ → Vector3 :=
  if (bodies.getD j default).isAlive = false then acc
  else
    let bi := bodies.getD i default
    let bj := bodies.getD j default
    let r_vec := Vector3Subtract bj.position bi.position
    let r_squared := Vector3LengthSqr r_vec
    if r_squared < INFLUENCE_DISTANCE_SQ ∧ MIN_DISTANCE_CUBED < r_squared then
      let r_cubed := r_squared * Real.sqrt r_squared
      let force_magnitude := GRAVITATIONAL_CONSTANT / r_cubed
      storeAcc acc j
        (Vector3Add (acc j) (Vector3Scale r_vec ((-force_magnitude) * bi.mass)))
    else
      if r_squared < INFLUENCE_DISTANCE_SQ then
        let force_magnitude := GRAVITATIONAL_CONSTANT / MIN_DISTANCE_CUBED
        storeAcc acc j
          (Vector3Add (acc j) (Vector3Scale r_vec ((-force_magnitude) * bi.mass)))
      else acc

/-- ComputeGravitationalAccelerations of orbitalSim.cpp.  The local
systemBodies cutoff is the source expression (n > 100) ? 9 : n, not the
systemBodies field of the simulation. -/
def ComputeGravitationalAccelerations (sim : OrbitalSim) (bodies : List OrbitalBody)
    (n : ℕ) : ℕ → Vector3 :=
  let systemBodies := if 100 < n then 9 else n
  let acc0 : ℕ → Vector3 := fun _ => Vector3.zero
  let acc1 := (List.range systemBodies).foldl
    (fun acc i =>
      if (bodies.getD i default).isAlive = false then acc
      else (List.range systemBodies).foldl
        (fun a j => if j ≤ i then a else systemPairStep bodies i j a) acc)
    acc0
  let acc2 :=
    if systemBodies < n ∧ (bodies.getD 0 default).isAlive = true then
      (List.range n).foldl
        (fun acc i => if i < systemBodies then acc else starAsteroidStep sim bodies i acc)
        acc1
    else acc1
  (List.range systemBodies).foldl
    (fun acc i =>
      if i = 0 then acc
      else if (bodies.getD i default).isAlive = false then acc
      else (List.range n).foldl
        (fun a j => if j < systemBodies then a else planetAsteroidStep bodies i j a) acc)
    acc2

/-- Body of the loop of ComputeBlackHoleAcceleration.  In the below-floor
branch the source divides the black hole side term by r_cubed, not by the
floor. -/
def blackHoleForceStep (bodies : List OrbitalBody)
    (st : (ℕ → Vector3) × BlackHole) (i : ℕ) : (ℕ → Vector3) × BlackHole :=
  let acc := st.1
  let bh := st.2
  let bi := bodies.getD i default
  if bi.isAlive = false then st
  else
    let dx := bi.position.x - bh.position.x
    let dy := bi.position.y - bh.position.y
    let dz := bi.position.z - bh.position.z
    let r_squared := dx * dx + dy * dy + dz * dz
    let r_cubed := r_squared * Real.sqrt r_squared
    if MIN_DISTANCE_CUBED < r_cubed then
      let fmBody := GRAVITATIONAL_CONSTANT * bh.mass / r_cubed
      let acc1 := storeAcc acc i
        { x := (acc i).x + (-fmBody) * dx, y := (acc i).y + (-fmBody) * dy,
          z := (acc i).z + (-fmBody) * dz }
      let fmHole := GRAVITATIONAL_CONSTANT * bi.mass / r_cubed
      let bh1 := { bh with acceleration :=
        { x := bh.acceleration.x - (-fmHole) * dx,
          y := bh.acceleration.y - (-fmHole) * dy,
          z := bh.acceleration.z - (-fmHole) * dz } }
      (acc1, bh1)
    else
      let fmBody := GRAVITATIONAL_CONSTANT * bh.mass / MIN_DISTANCE_CUBED
      let acc1 := storeAcc acc i
        { x := (acc i).x + (-fmBody) * dx, y := (acc i).y + (-fmBody) * dy,
          z := (acc i).z + (-fmBody) * dz }
      let fmHole := GRAVITATIONAL_CONSTANT * bi.mass / r_cubed
      let bh1 := { bh with acceleration :=
        { x := bh.acceleration.x - (-fmHole) * dx,
          y := bh.acceleration.y - (-fmHole) * dy,
          z := bh.acceleration.z - (-fmHole) * dz } }
      (acc1, bh1)

/-- ComputeBlackHoleAcceleration of orbitalSim.cpp.  Returns the updated
acceleration buffer and the updated black hole record. -/
def ComputeBlackHoleAcceleration (blackHole : BlackHole) (bodies : List OrbitalBody)
    (accelerations : ℕ → Vector3) (n : ℕ) : (ℕ → Vector3) × BlackHole :=
  (List.range n).foldl (blackHoleForceStep bodies) (accelerations, blackHole)

/-- Body of the loop of HandleBlackHoleCollision. -/
def blackHoleCollisionStep (st : BlackHole × List OrbitalBody) (i : ℕ) :
    BlackHole × List OrbitalBody :=
  let bh := st.1
  let body := st.2
  let bi := body.getD i default
  if bi.isAlive = false then st
  else
    let accretionRadius := max bh.radius (0.05 * Vector3Length bi.position)
    let dx := bi.position.x - bh.position.x
    let dy := bi.position.y - bh.position.y
    let dz := bi.position.z - bh.position.z
    let distance := Real.sqrt (dx * dx + dy * dy + dz * dz)
    if distance < accretionRadius then
      let newMass := bh.mass + bi.mass
      ({ bh with
          mass := newMass
          radius := bh.radius + bh.growthRate
          eventHorizonRadius := 2.95 * (newMass / 1.989e30) * 1e3 },
       body.set i { bi with isAlive := false })
    else st

/-- HandleBlackHoleCollision of orbitalSim.cpp. -/
def HandleBlackHoleCollision (blackHole : BlackHole) (body : List OrbitalBody)
    (n : ℕ) : BlackHole × List OrbitalBody :=
  (List.range n).foldl blackHoleCollisionStep (blackHole, body)

/-- Body of the loop of ComputeBlackHoleSelfAcceleration; guarded only by
r_cubed > 0, with no regularization floor. -/
def blackHoleSelfStep (blackHole : BlackHole) (bodies : List OrbitalBody)
    (a : Vector3) (i : ℕ) : Vector3 :=
  let bi := bodies.getD i default
  if bi.isAlive = false then a
  else
    let dx := bi.position.x - blackHole.position.x
    let dy := bi.position.y - blackHole.position.y
    let dz := bi.position.z - blackHole.position.z
    let r_squared := dx * dx + dy * dy + dz * dz
    let r_cubed := r_squared * Real.sqrt r_squared
    if 0 < r_cubed then
      let force_magnitude := GRAVITATIONAL_CONSTANT * bi.mass / r_cubed
      { x := a.x + force_magnitude * dx, y := a.y + force_magnitude * dy,
        z := a.z + force_magnitude * dz }
    else a

/-- ComputeBlackHoleSelfAcceleration of orbitalSim.cpp. -/
def ComputeBlackHoleSelfAcceleration (blackHole : BlackHole)
    (bodies : List OrbitalBody) (n : ℕ) : Vector3 :=
  (List.range n).foldl (blackHoleSelfStep blackHole bodies) Vector3.zero

/-- Body of the integration loop of updateOrbitalSim: semi-implicit Euler on
one live body. -/
def integrateStep (dt : ℝ) (accelerations : ℕ → Vector3)
    (bodies : List OrbitalBody) (i : ℕ) : List OrbitalBody :=
  let bi := bodies.getD i default
  if bi.isAlive = false then bodies
  else
    let v := Vector3Add bi.velocity (Vector3Scale (accelerations i) dt)
    let p := Vector3Add bi.position (Vector3Scale v dt)
    bodies.set i { bi with velocity := v, position := p }

/-- updateOrbitalSim of orbitalSim.cpp: one simulation tick. -/
def updateOrbitalSim (sim : OrbitalSim) : OrbitalSim :=
  let n := sim.numBodies
  let dt := sim.timeStep
  let bodies := sim.bodies
  let accelerations := ComputeGravitationalAccelerations sim bodies n
  if sim.blackHole.isActive = true then
    let st := ComputeBlackHoleAcceleration sim.blackHole bodies accelerations n
    let acc2 := st.1
    let bh1 := st.2
    let accBH := Vector3Scale (ComputeBlackHoleSelfAcceleration bh1 bodies n) 0.1
    let v := Vector3Add bh1.velocity (Vector3Scale accBH dt)
    let p := Vector3Add bh1.position (Vector3Scale v dt)
    let bh2 := { bh1 with velocity := v, position := p }
    let st2 := HandleBlackHoleCollision bh2 bodies n
    { sim with
        blackHole := st2.1
        bodies := (List.range n).foldl (integrateStep dt acc2) st2.2 }
  else
    { sim with bodies := (List.range n).foldl (integrateStep dt accelerations) bodies }

/-! ### General toolkit -/

theorem storeAcc_self (acc : ℕ → Vector3) (k : ℕ) (v : Vector3) :
    storeAcc acc k v k = v := by
  simp [storeAcc]

theorem storeAcc_ne (acc : ℕ → Vector3) (k v : ℕ) (w : Vector3) (h : v ≠ k) :
    storeAcc acc k w v = acc v := by
  simp [storeAcc, h]

theorem getD_set_ne (l : List OrbitalBody) (i k : ℕ) (b d : OrbitalBody)
    (h : i ≠ k) : (l.set i b).getD k d = l.getD k d := by
  rw [List.getD_eq_getElem?_getD, List.getD_eq_getElem?_getD, List.getElem?_set_ne h]

theorem getD_set_self (l : List OrbitalBody) (i : ℕ) (b d : OrbitalBody)
    (h : i < l.length) : (l.set i b).getD i d = b := by
  rw [List.getD_eq_getElem?_getD, List.getElem?_set_self h]
  rfl

/-- Lists agree at every index except possibly d. -/
def agreeExcept (d : ℕ) (l1 l2 : List OrbitalBody) : Prop :=
  ∀ k, k ≠ d → l1.getD k default = l2.getD k default

theorem agreeExcept_set (d : ℕ) (l : List OrbitalBody) (b : OrbitalBody) :
    agreeExcept d l (l.set d b) := by
  intro k hk
  rw [getD_set_ne l d k b default (fun h => hk h.symm)]

/-- A fold whose steps all fix the state, under an invariant carried by the
unchanging state. -/
theorem foldl_fix {σ : Type _} (P : σ → Prop) (l : List ℕ) (f : σ → ℕ → σ)
    (h : ∀ s i, i ∈ l → P s → f s i = s) (s : σ) (h0 : P s) : l.foldl f s = s := by
  induction l with
  | nil => rfl
  | cons a t ih =>
    have ha : f s a = s := h s a (List.mem_cons_self a t) h0
    rw [List.foldl_cons, ha]
    exact ih (fun s' i hi hP => h s' i (List.mem_cons_of_mem a hi) hP)

/-- A fold preserves an invariant. -/
theorem foldl_inv {σ : Type _} (P : σ → Prop) (l : List ℕ) (f : σ → ℕ → σ)
    (h : ∀ s i, i ∈ l → P s → P (f s i)) (s : σ) (h0 : P s) : P (l.foldl f s) := by
  induction l generalizing s with
  | nil => exact h0
  | cons a t ih =>
    exact ih (fun s' i hi hP => h s' i (List.mem_cons_of_mem a hi) hP) _
      (h s a (List.mem_cons_self a t) h0)

/-- A projection of the state is untouched by every step of a fold. -/
theorem foldl_proj_preserve {σ τ : Type _} (π : σ → τ) (l : List ℕ) (f : σ → ℕ → σ)
    (h : ∀ s i, i ∈ l → π (f s i) = π s) (s : σ) : π (l.foldl f s) = π s := by
  induction l generalizing s with
  | nil => rfl
  | cons a t ih =>
    rw [List.foldl_cons]
    rw [ih (fun s' i hi => h s' i (List.mem_cons_of_mem a hi)) (f s a)]
    exact h s a (List.mem_cons_self a t)

/-- Two folds over the same index list whose steps agree on a projection of
the state produce states agreeing on that projection. -/
theorem foldl_proj_agree {σ τ : Type _} (π : σ → τ) (l : List ℕ)
    (f1 f2 : σ → ℕ → σ)
    (h : ∀ s1 s2 i, i ∈ l → π s1 = π s2 → π (f1 s1 i) = π (f2 s2 i))
    (s1 s2 : σ) (h0 : π s1 = π s2) : π (l.foldl f1 s1) = π (l.foldl f2 s2) := by
  induction l generalizing s1 s2 with
  | nil => exact h0
  | cons a t ih =>
    exact ih (fun t1 t2 i hi hp => h t1 t2 i (List.mem_cons_of_mem a hi) hp) _ _
      (h s1 s2 a (List.mem_cons_self a t) h0)

/-- Two folds over the same index list whose steps preserve a binary state
relation produce related states. -/
theorem foldl_rel {σ : Type _} (R : σ → σ → Prop) (l : List ℕ)
    (f1 f2 : σ → ℕ → σ)
    (h : ∀ s1 s2 i, i ∈ l → R s1 s2 → R (f1 s1 i) (f2 s2 i))
    (s1 s2 : σ) (h0 : R s1 s2) : R (l.foldl f1 s1) (l.foldl f2 s2) := by
  induction l generalizing s1 s2 with
  | nil => exact h0
  | cons a t ih =>
    exact ih (fun t1 t2 i hi hp => h t1 t2 i (List.mem_cons_of_mem a hi) hp) _ _
      (h s1 s2 a (List.mem_cons_self a t) h0)

/-- Split List.range n around an interior index j. -/
theorem rangeSplit (n j : ℕ) (hj : j < n) :
    List.range n =
      List.range j ++ j :: (List.range (n - j - 1)).map (fun x => j + 1 + x) := by
  have h1 := List.range_add (j + 1) (n - j - 1)
  have hn : (j + 1) + (n - j - 1) = n := by omega
  rw [hn] at h1
  rw [h1, List.range_succ, List.append_assoc, List.singleton_append]

/-- Value of a fold over List.range n at a projection that only the step of
index j can change. -/
theorem foldl_range_at {σ τ : Type _} (π : σ → τ) (g : τ → τ) (f : σ → ℕ → σ)
    (n j : ℕ) (hj : j < n)
    (hpres : ∀ s i, i ≠ j → π (f s i) = π s)
    (hstep : ∀ s, π (f s j) = g (π s)) (s : σ) :
    π ((List.range n).foldl f s) = g (π s) := by
  rw [rangeSplit n j hj, List.foldl_append, List.foldl_cons]
  rw [foldl_proj_preserve π _ f ?hmap]
  case hmap =>
    intro s' i hi
    rcases List.mem_map.mp hi with ⟨a, _, rfl⟩
    exact hpres s' (j + 1 + a) (by omega)
  rw [hstep]
  rw [foldl_proj_preserve π _ f ?hlow]
  case hlow =>
    intro s' i hi
    exact hpres s' i (by have := List.mem_range.mp hi; omega)

@[simp]
theorem Vector3Scale_zero (s : ℝ) : Vector3Scale Vector3.zero s = Vector3.zero := by
  simp [Vector3Scale, Vector3.zero]

@[simp]
theorem Vector3Add_zero_right (v : Vector3) : Vector3Add v Vector3.zero = v := by
  simp [Vector3Add, Vector3.zero]

@[simp]
theorem Vector3Add_zero_left (v : Vector3) : Vector3Add Vector3.zero v = v := by
  simp [Vector3Add, Vector3.zero]

/-! ### Pointwise behaviour of the individual loop bodies -/

theorem systemPairStep_ne (bodies : List OrbitalBody) (i j m : ℕ)
    (acc : ℕ → Vector3) (hmi : m ≠ i) (hmj : m ≠ j) :
    systemPairStep bodies i j acc m = acc m := by
  simp only [systemPairStep]
  split_ifs <;> simp [storeAcc, hmi, hmj]

theorem systemPairStep_dead_j (bodies : List OrbitalBody) (i j : ℕ)
    (acc : ℕ → Vector3) (h : (bodies.getD j default).isAlive = false) :
    systemPairStep bodies i j acc = acc := by
  unfold systemPairStep
  rw [if_pos h]

theorem starAsteroidStep_ne (sim : OrbitalSim) (bodies : List OrbitalBody)
    (i m : ℕ) (acc : ℕ → Vector3) (hmi : m ≠ i) :
    starAsteroidStep sim bodies i acc m = acc m := by
  simp only [starAsteroidStep]
  split_ifs <;> simp [storeAcc, hmi]

theorem starAsteroidStep_dead (sim : OrbitalSim) (bodies : List OrbitalBody)
    (i : ℕ) (acc : ℕ → Vector3) (h : (bodies.getD i default).isAlive = false) :
    starAsteroidStep sim bodies i acc = acc := by
  unfold starAsteroidStep
  rw [if_pos h]

theorem planetAsteroidStep_ne (bodies : List OrbitalBody) (i j m : ℕ)
    (acc : ℕ → Vector3) (hmj : m ≠ j) :
    planetAsteroidStep bodies i j acc m = acc m := by
  simp only [planetAsteroidStep]
  split_ifs <;> simp [storeAcc, hmj]

theorem planetAsteroidStep_dead_j (bodies : List OrbitalBody) (i j : ℕ)
    (acc : ℕ → Vector3) (h : (bodies.getD j default).isAlive = false) :
    planetAsteroidStep bodies i j acc = acc := by
  unfold planetAsteroidStep
  rw [if_pos h]

theorem blackHoleForceStep_acc_ne (bodies : List OrbitalBody)
    (st : (ℕ → Vector3) × BlackHole) (i m : ℕ) (h : m ≠ i) :
    (blackHoleForceStep bodies st i).1 m = st.1 m := by
  simp only [blackHoleForceStep]
  split_ifs <;> simp [storeAcc, h]

theorem blackHoleForceStep_dead (bodies : List OrbitalBody)
    (st : (ℕ → Vector3) × BlackHole) (i : ℕ)
    (h : (bodies.getD i default).isAlive = false) :
    blackHoleForceStep bodies st i = st := by
  unfold blackHoleForceStep
  rw [if_pos h]

/-- ComputeBlackHoleAcceleration changes nothing of the black hole record
except the acceleration field. -/
theorem blackHoleForceStep_bh_frame (bodies : List OrbitalBody)
    (st : (ℕ → Vector3) × BlackHole) (i : ℕ) :
    (blackHoleForceStep bodies st i).2.position = st.2.position ∧
    (blackHoleForceStep bodies st i).2.velocity = st.2.velocity ∧
    (blackHoleForceStep bodies st i).2.mass = st.2.mass ∧
    (blackHoleForceStep bodies st i).2.radius = st.2.radius ∧
    (blackHoleForceStep bodies st i).2.eventHorizonRadius = st.2.eventHorizonRadius ∧
    (blackHoleForceStep bodies st i).2.isActive = st.2.isActive ∧
    (blackHoleForceStep bodies st i).2.growthRate = st.2.growthRate := by
  simp only [blackHoleForceStep]
  split_ifs <;> simp

theorem blackHoleSelfStep_dead (blackHole : BlackHole) (bodies : List OrbitalBody)
    (a : Vector3) (i : ℕ) (h : (bodies.getD i default).isAlive = false) :
    blackHoleSelfStep blackHole bodies a i = a := by
  unfold blackHoleSelfStep
  rw [if_pos h]

theorem blackHoleCollisionStep_dead (st : BlackHole × List OrbitalBody) (i : ℕ)
    (h : (st.2.getD i default).isAlive = false) :
    blackHoleCollisionStep st i = st := by
  unfold blackHoleCollisionStep
  rw [if_pos h]

/-- HandleBlackHoleCollision changes nothing of the black hole record except
mass, radius and eventHorizonRadius. -/
theorem blackHoleCollisionStep_bh_frame (st : BlackHole × List OrbitalBody) (i : ℕ) :
    (blackHoleCollisionStep st i).1.position = st.1.position ∧
    (blackHoleCollisionStep st i).1.velocity = st.1.velocity ∧
    (blackHoleCollisionStep st i).1.acceleration = st.1.acceleration ∧
    (blackHoleCollisionStep st i).1.isActive = st.1.isActive ∧
    (blackHoleCollisionStep st i).1.growthRate = st.1.growthRate := by
  simp only [blackHoleCollisionStep]
  split_ifs <;> simp

/-- A collision step never decreases the black hole mass and radius, given
nonnegative body masses and growth rate. -/
theorem blackHoleCollisionStep_bodies_frame (st : BlackHole × List OrbitalBody)
    (i k : ℕ) :
    ((blackHoleCollisionStep st i).2.getD k default).mass
        = (st.2.getD k default).mass ∧
    ((blackHoleCollisionStep st i).2.getD k default).radius
        = (st.2.getD k default).radius ∧
    ((blackHoleCollisionStep st i).2.getD k default).color
        = (st.2.getD k default).color ∧
    ((blackHoleCollisionStep st i).2.getD k default).position
        = (st.2.getD k default).position ∧
    ((blackHoleCollisionStep st i).2.getD k default).velocity
        = (st.2.getD k default).velocity := by
  simp only [blackHoleCollisionStep]
  split_ifs with h1 h2
  · exact ⟨rfl, rfl, rfl, rfl, rfl⟩
  · by_cases hk : k = i
    · subst hk
      by_cases hlen : k < st.2.length
      · rw [getD_set_self st.2 k _ default hlen]
        exact ⟨rfl, rfl, rfl, rfl, rfl⟩
      · rw [List.set_eq_of_length_le (le_of_not_lt hlen)]
        exact ⟨rfl, rfl, rfl, rfl, rfl⟩
    · rw [getD_set_ne st.2 i k _ default (fun hh => hk hh.symm)]
      exact ⟨rfl, rfl, rfl, rfl, rfl⟩
  · exact ⟨rfl, rfl, rfl, rfl, rfl⟩

theorem blackHoleCollisionStep_getD_ne (st : BlackHole × List OrbitalBody)
    (i k : ℕ) (h : k ≠ i) :
    (blackHoleCollisionStep st i).2.getD k default = st.2.getD k default := by
  simp only [blackHoleCollisionStep]
  split_ifs
  · rfl
  · exact getD_set_ne st.2 i k _ default (fun hh => h hh.symm)
  · rfl

theorem integrateStep_dead (dt : ℝ) (acc : ℕ → Vector3) (bodies : List OrbitalBody)
    (i : ℕ) (h : (bodies.getD i default).isAlive = false) :
    integrateStep dt acc bodies i = bodies := by
  unfold integrateStep
  rw [if_pos h]

theorem integrateStep_getD_ne (dt : ℝ) (acc : ℕ → Vector3)
    (bodies : List OrbitalBody) (i k : ℕ) (h : k ≠ i) :
    (integrateStep dt acc bodies i).getD k default = bodies.getD k default := by
  simp only [integrateStep]
  split_ifs
  · rfl
  · exact getD_set_ne bodies i k _ default (fun hh => h hh.symm)

/-- Integration changes only positions and velocities of body records. -/
theorem integrateStep_frame (dt : ℝ) (acc : ℕ → Vector3)
    (bodies : List OrbitalBody) (i k : ℕ) :
    ((integrateStep dt acc bodies i).getD k default).mass
        = (bodies.getD k default).mass ∧
    ((integrateStep dt acc bodies i).getD k default).radius
        = (bodies.getD k default).radius ∧
    ((integrateStep dt acc bodies i).getD k default).color
        = (bodies.getD k default).color ∧
    ((integrateStep dt acc bodies i).getD k default).isAlive
        = (bodies.getD k default).isAlive := by
  simp only [integrateStep]
  split_ifs with h1
  · exact ⟨rfl, rfl, rfl, rfl⟩
  · by_cases hk : k = i
    · subst hk
      by_cases hlen : k < bodies.length
      · rw [getD_set_self bodies k _ default hlen]
        exact ⟨rfl, rfl, rfl, rfl⟩
      · rw [List.set_eq_of_length_le (le_of_not_lt hlen)]
        exact ⟨rfl, rfl, rfl, rfl⟩
    · rw [getD_set_ne bodies i k _ default (fun hh => hk hh.symm)]
      exact ⟨rfl, rfl, rfl, rfl⟩

/-! ### Pass-level frame lemmas -/

/-- The collision pass never touches mass, radius, color, position or
velocity of any body record. -/
theorem collisionFold_bodies_frame (l : List ℕ) (st : BlackHole × List OrbitalBody)
    (k : ℕ) :
    ((l.foldl blackHoleCollisionStep st).2.getD k default).mass
        = (st.2.getD k default).mass ∧
    ((l.foldl blackHoleCollisionStep st).2.getD k default).radius
        = (st.2.getD k default).radius ∧
    ((l.foldl blackHoleCollisionStep st).2.getD k default).color
        = (st.2.getD k default).color ∧
    ((l.foldl blackHoleCollisionStep st).2.getD k default).position
        = (st.2.getD k default).position ∧
    ((l.foldl blackHoleCollisionStep st).2.getD k default).velocity
        = (st.2.getD k default).velocity := by
  refine foldl_inv (fun s =>
    ((s.2.getD k default).mass = (st.2.getD k default).mass ∧
     (s.2.getD k default).radius = (st.2.getD k default).radius ∧
     (s.2.getD k default).color = (st.2.getD k default).color ∧
     (s.2.getD k default).position = (st.2.getD k default).position ∧
     (s.2.getD k default).velocity = (st.2.getD k default).velocity)) l _ ?_ st
    ⟨rfl, rfl, rfl, rfl, rfl⟩
  intro s i _ hP
  obtain ⟨e1, e2, e3, e4, e5⟩ := blackHoleCollisionStep_bodies_frame s i k
  exact ⟨e1.trans hP.1, e2.trans hP.2.1, e3.trans hP.2.2.1, e4.trans hP.2.2.2.1,
    e5.trans hP.2.2.2.2⟩

/-- The collision pass never touches position, velocity, acceleration,
activity or growth rate of the black hole. -/
theorem collisionFold_bh_frame (l : List ℕ) (st : BlackHole × List OrbitalBody) :
    ((l.foldl blackHoleCollisionStep st).1.position = st.1.position ∧
     (l.foldl blackHoleCollisionStep st).1.velocity = st.1.velocity ∧
     (l.foldl blackHoleCollisionStep st).1.acceleration = st.1.acceleration ∧
     (l.foldl blackHoleCollisionStep st).1.isActive = st.1.isActive ∧
     (l.foldl blackHoleCollisionStep st).1.growthRate = st.1.growthRate) := by
  refine foldl_inv (fun s =>
    (s.1.position = st.1.position ∧ s.1.velocity = st.1.velocity ∧
     s.1.acceleration = st.1.acceleration ∧ s.1.isActive = st.1.isActive ∧
     s.1.growthRate = st.1.growthRate)) l _ ?_ st ⟨rfl, rfl, rfl, rfl, rfl⟩
  intro s i _ hP
  obtain ⟨e1, e2, e3, e4, e5⟩ := blackHoleCollisionStep_bh_frame s i
  exact ⟨e1.trans hP.1, e2.trans hP.2.1, e3.trans hP.2.2.1, e4.trans hP.2.2.2.1,
    e5.trans hP.2.2.2.2⟩

/-- The integration pass never touches mass, radius, color or liveness of
any body record. -/
theorem integrateFold_frame (dt : ℝ) (acc : ℕ → Vector3) (l : List ℕ)
    (bodies : List OrbitalBody) (k : ℕ) :
    (((l.foldl (integrateStep dt acc) bodies).getD k default).mass
        = (bodies.getD k default).mass ∧
     ((l.foldl (integrateStep dt acc) bodies).getD k default).radius
        = (bodies.getD k default).radius ∧
     ((l.foldl (integrateStep dt acc) bodies).getD k default).color
        = (bodies.getD k default).color ∧
     ((l.foldl (integrateStep dt acc) bodies).getD k default).isAlive
        = (bodies.getD k default).isAlive) := by
  refine foldl_inv (fun bs =>
    ((bs.getD k default).mass = (bodies.getD k default).mass ∧
     (bs.getD k default).radius = (bodies.getD k default).radius ∧
     (bs.getD k default).color = (bodies.getD k default).color ∧
     (bs.getD k default).isAlive = (bodies.getD k default).isAlive)) l _ ?_ bodies
    ⟨rfl, rfl, rfl, rfl⟩
  intro s i _ hP
  obtain ⟨e1, e2, e3, e4⟩ := integrateStep_frame dt acc s i k
  exact ⟨e1.trans hP.1, e2.trans hP.2.1, e3.trans hP.2.2.1, e4.trans hP.2.2.2⟩

/-- The black hole force pass never touches the black hole record except its
acceleration field. -/
theorem blackHoleForceFold_bh_frame (bodies : List OrbitalBody) (l : List ℕ)
    (st : (ℕ → Vector3) × BlackHole) :
    ((l.foldl (blackHoleForceStep bodies) st).2.position = st.2.position ∧
     (l.foldl (blackHoleForceStep bodies) st).2.velocity = st.2.velocity ∧
     (l.foldl (blackHoleForceStep bodies) st).2.mass = st.2.mass ∧
     (l.foldl (blackHoleForceStep bodies) st).2.radius = st.2.radius ∧
     (l.foldl (blackHoleForceStep bodies) st).2.eventHorizonRadius
        = st.2.eventHorizonRadius ∧
     (l.foldl (blackHoleForceStep bodies) st).2.isActive = st.2.isActive ∧
     (l.foldl (blackHoleForceStep bodies) st).2.growthRate = st.2.growthRate) := by
  refine foldl_inv (fun s =>
    (s.2.position = st.2.position ∧ s.2.velocity = st.2.velocity ∧
     s.2.mass = st.2.mass ∧ s.2.radius = st.2.radius ∧
     s.2.eventHorizonRadius = st.2.eventHorizonRadius ∧
     s.2.isActive = st.2.isActive ∧ s.2.growthRate = st.2.growthRate))
    l _ ?_ st ⟨rfl, rfl, rfl, rfl, rfl, rfl, rfl⟩
  intro s i _ hP
  obtain ⟨e1, e2, e3, e4, e5, e6, e7⟩ := blackHoleForceStep_bh_frame bodies s i
  exact ⟨e1.trans hP.1, e2.trans hP.2.1, e3.trans hP.2.2.1, e4.trans hP.2.2.2.1,
    e5.trans hP.2.2.2.2.1, e6.trans hP.2.2.2.2.2.1, e7.trans hP.2.2.2.2.2.2⟩

/-- The black hole self acceleration reads only the position of the black
hole record. -/
theorem ComputeBlackHoleSelfAcceleration_congr (bh1 bh2 : BlackHole)
    (bodies : List OrbitalBody) (n : ℕ) (h : bh1.position = bh2.position) :
    ComputeBlackHoleSelfAcceleration bh1 bodies n
      = ComputeBlackHoleSelfAcceleration bh2 bodies n := by
  unfold ComputeBlackHoleSelfAcceleration
  have hstep : blackHoleSelfStep bh1 bodies = blackHoleSelfStep bh2 bodies := by
    funext a i
    unfold blackHoleSelfStep
    rw [h]
  rw [hstep]

/-! ### Claim C10 -/

/-- Claim C10: one simulation tick changes at most the position, velocity and
isAlive fields of bodies and the black hole record: each body keeps its mass,
radius and color, and the simulation keeps its numBodies, systemBodies,
asteroidCount, timeStep, config and aliveBodies fields, the latter keeping
its construction-time value even after absorption events. -/
theorem C10_tick_frame (sim : OrbitalSim) :
    (updateOrbitalSim sim).numBodies = sim.numBodies ∧
    (updateOrbitalSim sim).systemBodies = sim.systemBodies ∧
    (updateOrbitalSim sim).asteroidCount = sim.asteroidCount ∧
    (updateOrbitalSim sim).timeStep = sim.timeStep ∧
    (updateOrbitalSim sim).config = sim.config ∧
    (updateOrbitalSim sim).aliveBodies = sim.aliveBodies ∧
    ∀ k, (((updateOrbitalSim sim).bodies.getD k default).mass
            = (sim.bodies.getD k default).mass ∧
          ((updateOrbitalSim sim).bodies.getD k default).radius
            = (sim.bodies.getD k default).radius ∧
          ((updateOrbitalSim sim).bodies.getD k default).color
            = (sim.bodies.getD k default).color) := by
  unfold updateOrbitalSim
  split_ifs with h
  · refine ⟨rfl, rfl, rfl, rfl, rfl, rfl, ?_⟩
    intro k
    obtain ⟨i1, i2, i3, _⟩ := integrateFold_frame sim.timeStep
      (ComputeBlackHoleAcceleration sim.blackHole sim.bodies
        (ComputeGravitationalAccelerations sim sim.bodies sim.numBodies)
        sim.numBodies).1
      (List.range sim.numBodies)
      (HandleBlackHoleCollision _ sim.bodies sim.numBodies).2 k
    obtain ⟨c1, c2, c3, _, _⟩ := collisionFold_bodies_frame
      (List.range sim.numBodies) (_, sim.bodies) k
    exact ⟨i1.trans c1, i2.trans c2, i3.trans c3⟩
  · refine ⟨rfl, rfl, rfl, rfl, rfl, rfl, ?_⟩
    intro k
    obtain ⟨i1, i2, i3, _⟩ := integrateFold_frame sim.timeStep
      (ComputeGravitationalAccelerations sim sim.bodies sim.numBodies)
      (List.range sim.numBodies) sim.bodies k
    exact ⟨i1, i2, i3⟩

theorem CBHA_bh_frame (bh : BlackHole) (bodies : List OrbitalBody)
    (acc : ℕ → Vector3) (n : ℕ) :
    ((ComputeBlackHoleAcceleration bh bodies acc n).2.position = bh.position ∧
     (ComputeBlackHoleAcceleration bh bodies acc n).2.velocity = bh.velocity ∧
     (ComputeBlackHoleAcceleration bh bodies acc n).2.mass = bh.mass ∧
     (ComputeBlackHoleAcceleration bh bodies acc n).2.radius = bh.radius ∧
     (ComputeBlackHoleAcceleration bh bodies acc n).2.eventHorizonRadius
        = bh.eventHorizonRadius ∧
     (ComputeBlackHoleAcceleration bh bodies acc n).2.isActive = bh.isActive ∧
     (ComputeBlackHoleAcceleration bh bodies acc n).2.growthRate = bh.growthRate) :=
  blackHoleForceFold_bh_frame bodies (List.range n) (acc, bh)

theorem HBHC_bh_frame (bh : BlackHole) (bodies : List OrbitalBody) (n : ℕ) :
    ((HandleBlackHoleCollision bh bodies n).1.position = bh.position ∧
     (HandleBlackHoleCollision bh bodies n).1.velocity = bh.velocity ∧
     (HandleBlackHoleCollision bh bodies n).1.acceleration = bh.acceleration ∧
     (HandleBlackHoleCollision bh bodies n).1.isActive = bh.isActive ∧
     (HandleBlackHoleCollision bh bodies n).1.growthRate = bh.growthRate) :=
  collisionFold_bh_frame (List.range n) (bh, bodies)

/-- With an active black hole, the tick moves the black hole by semi-implicit
Euler on the freshly computed self acceleration scaled by 0.1. -/
theorem updateOrbitalSim_blackHole_motion (sim : OrbitalSim)
    (h : sim.blackHole.isActive = true) :
    ((updateOrbitalSim sim).blackHole.velocity
      = Vector3Add sim.blackHole.velocity
          (Vector3Scale
            (Vector3Scale
              (ComputeBlackHoleSelfAcceleration sim.blackHole sim.bodies sim.numBodies)
              0.1)
            sim.timeStep) ∧
     (updateOrbitalSim sim).blackHole.position
      = Vector3Add sim.blackHole.position
          (Vector3Scale
            (Vector3Add sim.blackHole.velocity
              (Vector3Scale
                (Vector3Scale
                  (ComputeBlackHoleSelfAcceleration sim.blackHole sim.bodies
                    sim.numBodies)
                  0.1)
                sim.timeStep))
            sim.timeStep)) := by
  obtain ⟨hp1, hv1, _, _, _, _, _⟩ := CBHA_bh_frame sim.blackHole sim.bodies
    (ComputeGravitationalAccelerations sim sim.bodies sim.numBodies) sim.numBodies
  have hself := ComputeBlackHoleSelfAcceleration_congr
    (ComputeBlackHoleAcceleration sim.blackHole sim.bodies
      (ComputeGravitationalAccelerations sim sim.bodies sim.numBodies)
      sim.numBodies).2
    sim.blackHole sim.bodies sim.numBodies hp1
  simp only [updateOrbitalSim]
  rw [if_pos h]
  constructor
  · rw [(HBHC_bh_frame _ _ _).2.1]
    dsimp only
    rw [hv1, hself]
  · rw [(HBHC_bh_frame _ _ _).1]
    dsimp only
    rw [hp1, hv1, hself]

/-- Claim C5 (amended): with an active black hole, each tick updates the black
hole velocity and position by the semi-implicit Euler rule with the shared
timestep, but the acceleration it integrates is the freshly recomputed self
acceleration scaled by the factor 0.1, not the accumulated acceleration field
and not the unscaled value. -/
theorem C5_blackhole_euler_scaled (sim : OrbitalSim)
    (h : sim.blackHole.isActive = true) :
    ((updateOrbitalSim sim).blackHole.velocity
      = Vector3Add sim.blackHole.velocity
          (Vector3Scale
            (Vector3Scale
              (ComputeBlackHoleSelfAcceleration sim.blackHole sim.bodies sim.numBodies)
              0.1)
            sim.timeStep) ∧
     (updateOrbitalSim sim).blackHole.position
      = Vector3Add sim.blackHole.position
          (Vector3Scale
            (Vector3Add sim.blackHole.velocity
              (Vector3Scale
                (Vector3Scale
                  (ComputeBlackHoleSelfAcceleration sim.blackHole sim.bodies
                    sim.numBodies)
                  0.1)
                sim.timeStep))
            sim.timeStep)) :=
  updateOrbitalSim_blackHole_motion sim h

def bhC5 : BlackHole :=
  { position := Vector3.zero
    velocity := Vector3.zero
    acceleration := Vector3.zero
    mass := 1
    radius := 0.01
    eventHorizonRadius := 1
    isActive := true
    growthRate := 0 }

def bodyC5 : OrbitalBody :=
  { position := { x := 1, y := 0, z := 0 }
    velocity := Vector3.zero
    mass := 1
    radius := 1
    color := (0 : ℕ)
    isAlive := true }

def simC5 : OrbitalSim :=
  { timeStep := 1
    bodies := [bodyC5]
    numBodies := 1
    systemBodies := 1
    asteroidCount := 0
    centerRadius := 0
    blackHole := bhC5
    aliveBodies := 1
    config :=
      { systemType := SystemType.solar
        easterEgg := EasterEggType.none
        dispersion := DispersionType.normal
        asteroidCount := 0 } }

theorem simC5_self_accel :
    ComputeBlackHoleSelfAcceleration simC5.blackHole simC5.bodies simC5.numBodies
      = { x := GRAVITATIONAL_CONSTANT, y := 0, z := 0 } := by
  show ComputeBlackHoleSelfAcceleration bhC5 [bodyC5] 1 = _
  unfold ComputeBlackHoleSelfAcceleration
  rw [show List.range 1 = [0] from rfl, List.foldl_cons, List.foldl_nil]
  unfold blackHoleSelfStep
  norm_num [bhC5, bodyC5, Vector3.zero, Real.sqrt_one]

/-- Claim C5, counterexample: on a concrete one-body state the velocity of
the black hole after one tick differs from the value predicted by the
unscaled rule velocity plus self acceleration times dt: the source scales
the self acceleration by 0.1 first. -/
theorem C5_counterexample :
    (updateOrbitalSim simC5).blackHole.velocity ≠
      Vector3Add simC5.blackHole.velocity
        (Vector3Scale
          (ComputeBlackHoleSelfAcceleration simC5.blackHole simC5.bodies
            simC5.numBodies)
          simC5.timeStep) := by
  have hmot := (updateOrbitalSim_blackHole_motion simC5 rfl).1
  rw [hmot, simC5_self_accel]
  intro heq
  have hx := congrArg Vector3.x heq
  simp only [Vector3Add, Vector3Scale, simC5, bhC5, Vector3.zero] at hx
  rw [GRAVITATIONAL_CONSTANT] at hx
  norm_num at hx

/-- Witness for C5: the amended update rule holds on the concrete active
one-body state. -/
theorem C5_witness :
    simC5.blackHole.isActive = true ∧
    ((updateOrbitalSim simC5).blackHole.velocity
      = Vector3Add simC5.blackHole.velocity
          (Vector3Scale
            (Vector3Scale
              (ComputeBlackHoleSelfAcceleration simC5.blackHole simC5.bodies
                simC5.numBodies)
              0.1)
            simC5.timeStep) ∧
     (updateOrbitalSim simC5).blackHole.position
      = Vector3Add simC5.blackHole.position
          (Vector3Scale
            (Vector3Add simC5.blackHole.velocity
              (Vector3Scale
                (Vector3Scale
                  (ComputeBlackHoleSelfAcceleration simC5.blackHole simC5.bodies
                    simC5.numBodies)
                  0.1)
                simC5.timeStep))
            simC5.timeStep)) :=
  ⟨rfl, C5_blackhole_euler_scaled simC5 rfl⟩

/-! ### Claim C2 -/

theorem getD_mass_nonneg (l : List OrbitalBody) (i : ℕ)
    (h : ∀ b ∈ l, 0 ≤ b.mass) : 0 ≤ (l.getD i default).mass := by
  rw [List.getD_eq_getElem?_getD]
  cases hgl : l[i]? with
  | none => exact le_refl 0
  | some b => exact h b (List.getElem?_mem hgl)

/-- Along the collision pass the black hole mass and radius never decrease,
given nonnegative body masses and growth rate. -/
theorem collisionFold_mass_radius_mono (l : List ℕ)
    (st : BlackHole × List OrbitalBody)
    (hm : ∀ b ∈ st.2, 0 ≤ b.mass) (hg : 0 ≤ st.1.growthRate) :
    st.1.mass ≤ (l.foldl blackHoleCollisionStep st).1.mass ∧
    st.1.radius ≤ (l.foldl blackHoleCollisionStep st).1.radius := by
  have key := foldl_inv (fun s =>
      (st.1.mass ≤ s.1.mass ∧ st.1.radius ≤ s.1.radius ∧
       s.1.growthRate = st.1.growthRate ∧ ∀ b ∈ s.2, 0 ≤ b.mass)) l
    blackHoleCollisionStep ?_ st ⟨le_refl _, le_refl _, rfl, hm⟩
  · exact ⟨key.1, key.2.1⟩
  · intro s i _ hP
    obtain ⟨hP1, hP2, hP3, hP4⟩ := hP
    simp only [blackHoleCollisionStep]
    split_ifs with h1 h2
    · exact ⟨hP1, hP2, hP3, hP4⟩
    · refine ⟨hP1.trans (le_add_of_nonneg_right (getD_mass_nonneg s.2 i hP4)),
        hP2.trans (le_add_of_nonneg_right (hP3 ▸ hg)), hP3, ?_⟩
      intro b hb
      rcases List.mem_or_eq_of_mem_set hb with hmem | heq
      · exact hP4 b hmem
      · subst heq
        exact getD_mass_nonneg s.2 i hP4
    · exact ⟨hP1, hP2, hP3, hP4⟩

/-- Claim C2 (amended): over one tick the black hole mass and radius are
non-decreasing, given nonnegative body masses and growth rate.  The
eventHorizonRadius is not monotone: it is recomputed with factor 1e3 on
absorption while creation used factor 1e6, so it drops at the first
absorption event. -/
theorem C2_mass_radius_monotone (sim : OrbitalSim)
    (hm : ∀ b ∈ sim.bodies, 0 ≤ b.mass) (hg : 0 ≤ sim.blackHole.growthRate) :
    sim.blackHole.mass ≤ (updateOrbitalSim sim).blackHole.mass ∧
    sim.blackHole.radius ≤ (updateOrbitalSim sim).blackHole.radius := by
  obtain ⟨_, _, hmass1, hrad1, _, _, hgr1⟩ := CBHA_bh_frame sim.blackHole sim.bodies
    (ComputeGravitationalAccelerations sim sim.bodies sim.numBodies) sim.numBodies
  simp only [updateOrbitalSim]
  split_ifs with h
  · have hmono := collisionFold_mass_radius_mono (List.range sim.numBodies)
      ({ (ComputeBlackHoleAcceleration sim.blackHole sim.bodies
            (ComputeGravitationalAccelerations sim sim.bodies sim.numBodies)
            sim.numBodies).2 with
          velocity := Vector3Add (ComputeBlackHoleAcceleration sim.blackHole
              sim.bodies (ComputeGravitationalAccelerations sim sim.bodies
                sim.numBodies) sim.numBodies).2.velocity
            (Vector3Scale (Vector3Scale (ComputeBlackHoleSelfAcceleration
              (ComputeBlackHoleAcceleration sim.blackHole sim.bodies
                (ComputeGravitationalAccelerations sim sim.bodies sim.numBodies)
                sim.numBodies).2 sim.bodies sim.numBodies) 0.1) sim.timeStep)
          position := Vector3Add (ComputeBlackHoleAcceleration sim.blackHole
              sim.bodies (ComputeGravitationalAccelerations sim sim.bodies
                sim.numBodies) sim.numBodies).2.position
            (Vector3Scale (Vector3Add (ComputeBlackHoleAcceleration sim.blackHole
                sim.bodies (ComputeGravitationalAccelerations sim sim.bodies
                  sim.numBodies) sim.numBodies).2.velocity
              (Vector3Scale (Vector3Scale (ComputeBlackHoleSelfAcceleration
                (ComputeBlackHoleAcceleration sim.blackHole sim.bodies
                  (ComputeGravitationalAccelerations sim sim.bodies sim.numBodies)
                  sim.numBodies).2 sim.bodies sim.numBodies) 0.1) sim.timeStep))
              sim.timeStep) },
        sim.bodies) hm (by dsimp only; rw [hgr1]; exact hg)
    dsimp only at hmono
    exact ⟨(le_of_eq hmass1.symm).trans hmono.1, (le_of_eq hrad1.symm).trans hmono.2⟩
  · exact ⟨le_refl _, le_refl _⟩

def bodyC2 : OrbitalBody :=
  { position := Vector3.zero
    velocity := Vector3.zero
    mass := 1
    radius := 1
    color := (0 : ℕ)
    isAlive := true }

def simC2base : OrbitalSim :=
  { timeStep := 1
    bodies := [bodyC2]
    numBodies := 1
    systemBodies := 1
    asteroidCount := 0
    centerRadius := 0
    blackHole :=
      { position := Vector3.zero
        velocity := Vector3.zero
        acceleration := Vector3.zero
        mass := 0
        radius := 0
        eventHorizonRadius := 0
        isActive := false
        growthRate := 0 }
    aliveBodies := 1
    config :=
      { systemType := SystemType.solar
        easterEgg := EasterEggType.none
        dispersion := DispersionType.normal
        asteroidCount := 0 } }

def bhC2 : BlackHole := (createBlackHole simC2base Vector3.zero).blackHole

/-- Claim C2, counterexample: a freshly created black hole that absorbs a
one kilogram body at its own position ends with a strictly smaller
eventHorizonRadius than at creation, because creation uses factor 1e6 and
the absorption recomputation uses factor 1e3. -/
theorem C2_counterexample :
    (HandleBlackHoleCollision bhC2 [bodyC2] 1).1.eventHorizonRadius
      < bhC2.eventHorizonRadius := by
  have hbh : bhC2 =
      { position := Vector3.zero
        velocity := Vector3.zero
        acceleration := Vector3.zero
        mass := 10.0 * 1.989e30
        radius := 200.0 * (2.95 * ((10.0 * 1.989e30) / 1.989e30) * 1e6)
        eventHorizonRadius := 2.95 * ((10.0 * 1.989e30) / 1.989e30) * 1e6
        isActive := true
        growthRate := 1e3 } := by
    simp [bhC2, createBlackHole, simC2base]
  rw [hbh]
  unfold HandleBlackHoleCollision
  rw [show List.range 1 = [0] from rfl, List.foldl_cons, List.foldl_nil]
  simp only [blackHoleCollisionStep, List.getD_cons_zero]
  norm_num [bodyC2, Vector3Length, Vector3LengthSqr, Vector3.zero, Real.sqrt_zero,
    lt_max_iff]

/-- Witness for C2: the amended monotonicity statement holds on the concrete
one-body state. -/
theorem C2_witness :
    (∀ b ∈ simC2base.bodies, 0 ≤ b.mass) ∧
    0 ≤ simC2base.blackHole.growthRate ∧
    (simC2base.blackHole.mass ≤ (updateOrbitalSim simC2base).blackHole.mass ∧
     simC2base.blackHole.radius ≤ (updateOrbitalSim simC2base).blackHole.radius) := by
  have h1 : ∀ b ∈ simC2base.bodies, 0 ≤ b.mass := by
    intro b hb
    simp only [simC2base, List.mem_singleton] at hb
    subst hb
    norm_num [bodyC2]
  have h2 : (0 : ℝ) ≤ simC2base.blackHole.growthRate := by norm_num [simC2base]
  exact ⟨h1, h2, C2_mass_radius_monotone simC2base h1 h2⟩

/-! ### Claim C3 -/

def bhC3 : BlackHole :=
  { position := Vector3.zero
    velocity := Vector3.zero
    acceleration := Vector3.zero
    mass := 10.0 * 1.989e30
    radius := 1
    eventHorizonRadius := 1
    isActive := true
    growthRate := 1e3 }

def bodyC3 : OrbitalBody :=
  { position := { x := 1, y := 0, z := 0 }
    velocity := Vector3.zero
    mass := 1
    radius := 1
    color := (0 : ℕ)
    isAlive := true }

/-- Claim C3 fails on the code: for a live body one meter from the black
hole (separation at or below the minimum-distance floor), the black hole
side force term is divided by the raw r cubed instead of the floor, so the
accumulated black hole acceleration exceeds the floor-implied cap. -/
theorem C3_bug_eval :
    ¬ (MIN_DISTANCE_CUBED <
        Vector3LengthSqr (Vector3Subtract bodyC3.position bhC3.position) *
          Real.sqrt (Vector3LengthSqr (Vector3Subtract bodyC3.position bhC3.position))) ∧
    (ComputeBlackHoleAcceleration bhC3 [bodyC3] (fun _ => Vector3.zero) 1).2.acceleration.x
      = GRAVITATIONAL_CONSTANT ∧
    GRAVITATIONAL_CONSTANT * bodyC3.mass / MIN_DISTANCE_CUBED
      < GRAVITATIONAL_CONSTANT := by
  refine ⟨?_, ?_, ?_⟩
  · norm_num [Vector3Subtract, Vector3LengthSqr, bodyC3, bhC3, Vector3.zero,
      MIN_DISTANCE_CUBED, Real.sqrt_one]
  · unfold ComputeBlackHoleAcceleration
    rw [show List.range 1 = [0] from rfl, List.foldl_cons, List.foldl_nil]
    simp only [blackHoleForceStep, List.getD_cons_zero]
    norm_num [bodyC3, bhC3, Vector3.zero, Real.sqrt_one, MIN_DISTANCE_CUBED]
  · norm_num [bodyC3, MIN_DISTANCE_CUBED, GRAVITATIONAL_CONSTANT]

/-! ### Claim C4 -/

theorem Vector3LengthSqr_nonneg (v : Vector3) : 0 ≤ Vector3LengthSqr v := by
  unfold Vector3LengthSqr
  have hx := mul_self_nonneg v.x
  have hy := mul_self_nonneg v.y
  have hz := mul_self_nonneg v.z
  linarith

/-- Inside the influence threshold the cubed distance can never exceed the
regularization floor: 1e15 to the three halves is far below 1e29. -/
theorem below_influence_not_above_floor (s : ℝ) (h0 : 0 ≤ s)
    (h : s < INFLUENCE_DISTANCE_SQ) :
    ¬ (MIN_DISTANCE_CUBED < s * Real.sqrt s) := by
  rw [INFLUENCE_DISTANCE_SQ] at h
  rw [MIN_DISTANCE_CUBED]
  have h2 : Real.sqrt (1e16 : ℝ) = 1e8 := by
    rw [show (1e16 : ℝ) = (1e8 : ℝ) ^ 2 by norm_num, Real.sqrt_sq (by norm_num)]
  have h1 : Real.sqrt s ≤ 1e8 := by
    rw [← h2]
    exact Real.sqrt_le_sqrt (by linarith)
  have h3 : s * Real.sqrt s ≤ 1e15 * 1e8 :=
    mul_le_mul (le_of_lt h) h1 (Real.sqrt_nonneg s) (by norm_num)
  have h4 : (1e15 : ℝ) * 1e8 = 1e23 := by norm_num
  rw [h4] at h3
  intro hcon
  have h5 : (1e23 : ℝ) < 1e29 := by norm_num
  linarith

/-- Claim C4: in the planet-to-asteroid tier, with live source i and live
target j, a force is applied to j iff the squared distance is below the
influence threshold; the applied contribution uses the inverse cube force
whenever the cubed distance exceeds the floor (which in fact can never
happen inside the threshold) and the regularized floor value otherwise, and
no other slot of the acceleration buffer is written. -/
theorem C4_planet_asteroid_gate (bodies : List OrbitalBody) (i j : ℕ)
    (acc : ℕ → Vector3)
    (hi : (bodies.getD i default).isAlive = true)
    (hj : (bodies.getD j default).isAlive = true) :
    (planetAsteroidStep bodies i j acc j =
      (if Vector3LengthSqr (Vector3Subtract (bodies.getD j default).position
            (bodies.getD i default).position) < INFLUENCE_DISTANCE_SQ then
        Vector3Add (acc j)
          (Vector3Scale
            (Vector3Subtract (bodies.getD j default).position
              (bodies.getD i default).position)
            ((-(if MIN_DISTANCE_CUBED <
                  Vector3LengthSqr (Vector3Subtract (bodies.getD j default).position
                      (bodies.getD i default).position) *
                    Real.sqrt (Vector3LengthSqr (Vector3Subtract
                      (bodies.getD j default).position
                      (bodies.getD i default).position)) then
                GRAVITATIONAL_CONSTANT /
                  (Vector3LengthSqr (Vector3Subtract (bodies.getD j default).position
                      (bodies.getD i default).position) *
                    Real.sqrt (Vector3LengthSqr (Vector3Subtract
                      (bodies.getD j default).position
                      (bodies.getD i default).position)))
              else GRAVITATIONAL_CONSTANT / MIN_DISTANCE_CUBED)) *
              (bodies.getD i default).mass))
      else acc j)) ∧
    ∀ m, m ≠ j → planetAsteroidStep bodies i j acc m = acc m := by
  refine ⟨?_, fun m hm => planetAsteroidStep_ne bodies i j m acc hm⟩
  have h0 : 0 ≤ Vector3LengthSqr (Vector3Subtract (bodies.getD j default).position
      (bodies.getD i default).position) := Vector3LengthSqr_nonneg _
  simp only [planetAsteroidStep, hj]
  rw [if_neg (by simp : ¬ (true = false))]
  by_cases hin : Vector3LengthSqr (Vector3Subtract (bodies.getD j default).position
      (bodies.getD i default).position) < INFLUENCE_DISTANCE_SQ
  · have hnotmin : ¬ (MIN_DISTANCE_CUBED < Vector3LengthSqr (Vector3Subtract
        (bodies.getD j default).position (bodies.getD i default).position)) := by
      intro hb
      rw [INFLUENCE_DISTANCE_SQ] at hin
      rw [MIN_DISTANCE_CUBED] at hb
      have h15 : (1e15 : ℝ) ≤ 1e29 := by norm_num
      linarith
    have hnotcube := below_influence_not_above_floor _ h0 hin
    simp only [hin, hnotmin, hnotcube, if_true, if_false, true_and, and_false]
    rw [storeAcc_self]
  · simp only [hin, if_false, false_and]

def planetC4 : OrbitalBody :=
  { position := Vector3.zero
    velocity := Vector3.zero
    mass := 1
    radius := 1
    color := (0 : ℕ)
    isAlive := true }

def asteroidC4 : OrbitalBody :=
  { position := { x := 1, y := 0, z := 0 }
    velocity := Vector3.zero
    mass := 1
    radius := 1
    color := (0 : ℕ)
    isAlive := true }

def bodiesC4 : List OrbitalBody := [planetC4, asteroidC4]

def accC4 : ℕ → Vector3 := fun _ => Vector3.zero

/-- Witness for C4 at a concrete live planet-asteroid pair. -/
theorem C4_witness :
    (bodiesC4.getD 0 default).isAlive = true ∧
    (bodiesC4.getD 1 default).isAlive = true ∧
    ((planetAsteroidStep bodiesC4 0 1 accC4 1 =
      (if Vector3LengthSqr (Vector3Subtract (bodiesC4.getD 1 default).position
            (bodiesC4.getD 0 default).position) < INFLUENCE_DISTANCE_SQ then
        Vector3Add (accC4 1)
          (Vector3Scale
            (Vector3Subtract (bodiesC4.getD 1 default).position
              (bodiesC4.getD 0 default).position)
            ((-(if MIN_DISTANCE_CUBED <
                  Vector3LengthSqr (Vector3Subtract (bodiesC4.getD 1 default).position
                      (bodiesC4.getD 0 default).position) *
                    Real.sqrt (Vector3LengthSqr (Vector3Subtract
                      (bodiesC4.getD 1 default).position
                      (bodiesC4.getD 0 default).position)) then
                GRAVITATIONAL_CONSTANT /
                  (Vector3LengthSqr (Vector3Subtract (bodiesC4.getD 1 default).position
                      (bodiesC4.getD 0 default).position) *
                    Real.sqrt (Vector3LengthSqr (Vector3Subtract
                      (bodiesC4.getD 1 default).position
                      (bodiesC4.getD 0 default).position)))
              else GRAVITATIONAL_CONSTANT / MIN_DISTANCE_CUBED)) *
              (bodiesC4.getD 0 default).mass))
      else accC4 1)) ∧
     ∀ m, m ≠ 1 → planetAsteroidStep bodiesC4 0 1 accC4 m = accC4 m) :=
  ⟨rfl, rfl, C4_planet_asteroid_gate bodiesC4 0 1 accC4 rfl rfl⟩

/-! ### Claim C7 -/

/-- Claim C7: in the pairwise tier, for every pair of distinct indices i, j
with j live, the single evaluation of the pair adds mass weighted
contributions that are exact negations of each other (Newton third law);
and for a two body system above the minimum-distance floor the tick force
accumulator gives each body exactly the one contribution of the pair, with
the same mass weighted opposition. -/
theorem C7_newton_third_law (sim : OrbitalSim) (b0 b1 : OrbitalBody)
    (h0 : b0.isAlive = true) (h1 : b1.isAlive = true)
    (hfloor : MIN_DISTANCE_CUBED <
      Vector3LengthSqr (Vector3Subtract b1.position b0.position) *
        Real.sqrt (Vector3LengthSqr (Vector3Subtract b1.position b0.position))) :
    (∀ (bodies : List OrbitalBody) (i j : ℕ) (acc : ℕ → Vector3), i ≠ j →
      (bodies.getD j default).isAlive = true →
      Vector3Scale
          (Vector3Subtract (systemPairStep bodies i j acc j) (acc j))
          (bodies.getD j default).mass
        = Vector3Scale
            (Vector3Scale
              (Vector3Subtract (systemPairStep bodies i j acc i) (acc i))
              (bodies.getD i default).mass)
            (-1)) ∧
    (ComputeGravitationalAccelerations sim [b0, b1] 2 1 =
      Vector3Scale (Vector3Subtract b1.position b0.position)
        ((-(GRAVITATIONAL_CONSTANT /
            (Vector3LengthSqr (Vector3Subtract b1.position b0.position) *
              Real.sqrt (Vector3LengthSqr (Vector3Subtract b1.position b0.position))))) *
          b0.mass) ∧
     ComputeGravitationalAccelerations sim [b0, b1] 2 0 =
      Vector3Scale (Vector3Subtract b1.position b0.position)
        ((GRAVITATIONAL_CONSTANT /
            (Vector3LengthSqr (Vector3Subtract b1.position b0.position) *
              Real.sqrt (Vector3LengthSqr (Vector3Subtract b1.position b0.position)))) *
          b1.mass) ∧
     Vector3Scale (ComputeGravitationalAccelerations sim [b0, b1] 2 1) b1.mass
      = Vector3Scale
          (Vector3Scale (ComputeGravitationalAccelerations sim [b0, b1] 2 0) b0.mass)
          (-1)) := by
  have huniv : ∀ (bodies : List OrbitalBody) (i j : ℕ) (acc : ℕ → Vector3), i ≠ j →
      (bodies.getD j default).isAlive = true →
      Vector3Scale
          (Vector3Subtract (systemPairStep bodies i j acc j) (acc j))
          (bodies.getD j default).mass
        = Vector3Scale
            (Vector3Scale
              (Vector3Subtract (systemPairStep bodies i j acc i) (acc i))
              (bodies.getD i default).mass)
            (-1) := by
    intro bodies i j acc hij halive
    have hji : j ≠ i := fun h => hij h.symm
    simp only [systemPairStep, halive]
    rw [if_neg (by simp : ¬ (true = false))]
    split_ifs with hfl
    · simp only [storeAcc]
      simp only [if_neg hji, if_neg hij, eq_self_iff_true, if_true]
      ext
      · simp only [Vector3Scale, Vector3Subtract, Vector3Add]
        ring
      · simp only [Vector3Scale, Vector3Subtract, Vector3Add]
        ring
      · simp only [Vector3Scale, Vector3Subtract, Vector3Add]
        ring
    · simp only [storeAcc]
      simp only [if_neg hji, if_neg hij, eq_self_iff_true, if_true]
      ext
      · simp only [Vector3Scale, Vector3Subtract, Vector3Add]
        ring
      · simp only [Vector3Scale, Vector3Subtract, Vector3Add]
        ring
      · simp only [Vector3Scale, Vector3Subtract, Vector3Add]
        ring
  have hmain : ComputeGravitationalAccelerations sim [b0, b1] 2
      = systemPairStep [b0, b1] 0 1 (fun _ => Vector3.zero) := by
    simp only [ComputeGravitationalAccelerations]
    rw [show (if 100 < 2 then 9 else 2) = 2 by norm_num]
    rw [show List.range 2 = [0, 1] from rfl]
    simp only [List.foldl_cons, List.foldl_nil, List.getD_cons_zero,
      List.getD_cons_succ, h0, h1]
    norm_num
  have hpair : systemPairStep [b0, b1] 0 1 (fun _ => Vector3.zero) 1 =
      Vector3Scale (Vector3Subtract b1.position b0.position)
        ((-(GRAVITATIONAL_CONSTANT /
            (Vector3LengthSqr (Vector3Subtract b1.position b0.position) *
              Real.sqrt (Vector3LengthSqr (Vector3Subtract b1.position b0.position))))) *
          b0.mass) := by
    simp only [systemPairStep, List.getD_cons_zero, List.getD_cons_succ, h1]
    rw [if_neg (by simp : ¬ (true = false)), if_pos hfloor]
    simp [storeAcc]
  have hpair0 : systemPairStep [b0, b1] 0 1 (fun _ => Vector3.zero) 0 =
      Vector3Scale (Vector3Subtract b1.position b0.position)
        ((GRAVITATIONAL_CONSTANT /
            (Vector3LengthSqr (Vector3Subtract b1.position b0.position) *
              Real.sqrt (Vector3LengthSqr (Vector3Subtract b1.position b0.position)))) *
          b1.mass) := by
    simp only [systemPairStep, List.getD_cons_zero, List.getD_cons_succ, h1]
    rw [if_neg (by simp : ¬ (true = false)), if_pos hfloor]
    simp [storeAcc]
  rw [hmain, hpair, hpair0]
  refine ⟨huniv, rfl, rfl, ?_⟩
  ext
  · simp only [Vector3Scale]
    ring
  · simp only [Vector3Scale]
    ring
  · simp only [Vector3Scale]
    ring

def b0C7 : OrbitalBody :=
  { position := Vector3.zero
    velocity := Vector3.zero
    mass := 2
    radius := 1
    color := (0 : ℕ)
    isAlive := true }

def b1C7 : OrbitalBody :=
  { position := { x := 1e11, y := 0, z := 0 }
    velocity := Vector3.zero
    mass := 3
    radius := 1
    color := (0 : ℕ)
    isAlive := true }

def simC7 : OrbitalSim :=
  { timeStep := 1
    bodies := [b0C7, b1C7]
    numBodies := 2
    systemBodies := 2
    asteroidCount := 0
    centerRadius := 0
    blackHole :=
      { position := Vector3.zero
        velocity := Vector3.zero
        acceleration := Vector3.zero
        mass := 0
        radius := 0
        eventHorizonRadius := 0
        isActive := false
        growthRate := 0 }
    aliveBodies := 2
    config :=
      { systemType := SystemType.solar
        easterEgg := EasterEggType.none
        dispersion := DispersionType.normal
        asteroidCount := 0 } }

def accC7 : ℕ → Vector3 := fun _ => Vector3.zero

theorem C7_floor_concrete :
    MIN_DISTANCE_CUBED <
      Vector3LengthSqr (Vector3Subtract b1C7.position b0C7.position) *
        Real.sqrt (Vector3LengthSqr (Vector3Subtract b1C7.position b0C7.position)) := by
  have hs : Vector3LengthSqr (Vector3Subtract b1C7.position b0C7.position)
      = 1e22 := by
    norm_num [Vector3LengthSqr, Vector3Subtract, b1C7, b0C7, Vector3.zero]
  rw [MIN_DISTANCE_CUBED, hs,
    show Real.sqrt (1e22 : ℝ) = 1e11 by
      rw [show (1e22 : ℝ) = (1e11 : ℝ) ^ 2 by norm_num, Real.sqrt_sq (by norm_num)]]
  norm_num

/-- Witness for C7 at a concrete wide pair. -/
theorem C7_witness :
    b0C7.isAlive = true ∧ b1C7.isAlive = true ∧
    (MIN_DISTANCE_CUBED <
      Vector3LengthSqr (Vector3Subtract b1C7.position b0C7.position) *
        Real.sqrt (Vector3LengthSqr (Vector3Subtract b1C7.position b0C7.position))) ∧
    (Vector3Scale
        (Vector3Subtract (systemPairStep [b0C7, b1C7] 0 1 accC7 1) (accC7 1))
        b1C7.mass
      = Vector3Scale
          (Vector3Scale
            (Vector3Subtract (systemPairStep [b0C7, b1C7] 0 1 accC7 0) (accC7 0))
            b0C7.mass)
          (-1)) ∧
    (ComputeGravitationalAccelerations simC7 [b0C7, b1C7] 2 1 =
      Vector3Scale (Vector3Subtract b1C7.position b0C7.position)
        ((-(GRAVITATIONAL_CONSTANT /
            (Vector3LengthSqr (Vector3Subtract b1C7.position b0C7.position) *
              Real.sqrt (Vector3LengthSqr (Vector3Subtract b1C7.position b0C7.position))))) *
          b0C7.mass) ∧
     ComputeGravitationalAccelerations simC7 [b0C7, b1C7] 2 0 =
      Vector3Scale (Vector3Subtract b1C7.position b0C7.position)
        ((GRAVITATIONAL_CONSTANT /
            (Vector3LengthSqr (Vector3Subtract b1C7.position b0C7.position) *
              Real.sqrt (Vector3LengthSqr (Vector3Subtract b1C7.position b0C7.position)))) *
          b1C7.mass) ∧
     Vector3Scale (ComputeGravitationalAccelerations simC7 [b0C7, b1C7] 2 1) b1C7.mass
      = Vector3Scale
          (Vector3Scale (ComputeGravitationalAccelerations simC7 [b0C7, b1C7] 2 0)
            b0C7.mass)
          (-1)) := by
  have h := C7_newton_third_law simC7 b0C7 b1C7 rfl rfl C7_floor_concrete
  exact ⟨rfl, rfl, C7_floor_concrete,
    h.1 [b0C7, b1C7] 0 1 accC7 (by decide) rfl, h.2⟩

/-! ### Claim C8 -/

theorem lt_length_of_getD_alive (l : List OrbitalBody) (k : ℕ)
    (h : (l.getD k default).isAlive = true) : k < l.length := by
  by_contra hcon
  rw [List.getD_eq_getElem?_getD, List.getElem?_eq_none (le_of_not_lt hcon)] at h
  exact Bool.noConfusion h

/-- If the only live body sits exactly at the black hole position, the self
acceleration vanishes: the positive-cube guard rejects the coincident body
and dead bodies are skipped. -/
theorem selfAccel_zero_of (bh : BlackHole) (bodies : List OrbitalBody) (n k : ℕ)
    (hpos : (bodies.getD k default).position = bh.position)
    (hothers : ∀ m, m ≠ k → (bodies.getD m default).isAlive = false) :
    ComputeBlackHoleSelfAcceleration bh bodies n = Vector3.zero := by
  unfold ComputeBlackHoleSelfAcceleration
  apply foldl_fix (fun _ => True) _ _ ?_ _ trivial
  intro a i _ _
  by_cases hik : i = k
  · subst hik
    simp only [blackHoleSelfStep]
    rw [hpos]
    simp [sub_self, Real.sqrt_zero]
  · exact blackHoleSelfStep_dead bh bodies a i (hothers i hik)

theorem collisionFold_id_of_dead (l : List ℕ) (st : BlackHole × List OrbitalBody)
    (h : ∀ i ∈ l, (st.2.getD i default).isAlive = false) :
    l.foldl blackHoleCollisionStep st = st :=
  foldl_fix (fun s => s = st) l _
    (fun s i hi hs => by rw [hs]; exact blackHoleCollisionStep_dead st i (h i hi))
    st rfl

theorem integrateFold_id_of_dead (dt : ℝ) (acc : ℕ → Vector3) (l : List ℕ)
    (bodies : List OrbitalBody)
    (h : ∀ i ∈ l, (bodies.getD i default).isAlive = false) :
    l.foldl (integrateStep dt acc) bodies = bodies :=
  foldl_fix (fun s => s = bodies) l _
    (fun s i hi hs => by rw [hs]; exact integrateStep_dead dt acc bodies i (h i hi))
    bodies rfl

/-- If body k is the only live body and sits exactly at the black hole
position, the collision pass absorbs it: one absorption event. -/
theorem collision_absorbs_at (bh : BlackHole) (bodies : List OrbitalBody) (n k : ℕ)
    (hk : k < n) (hklen : k < bodies.length)
    (halive : (bodies.getD k default).isAlive = true)
    (hpos : (bodies.getD k default).position = bh.position)
    (hrad : 0 < bh.radius)
    (hothers : ∀ m, m ≠ k → (bodies.getD m default).isAlive = false) :
    ((HandleBlackHoleCollision bh bodies n).1.mass
        = bh.mass + (bodies.getD k default).mass ∧
     (HandleBlackHoleCollision bh bodies n).1.radius = bh.radius + bh.growthRate ∧
     (HandleBlackHoleCollision bh bodies n).2
        = bodies.set k { bodies.getD k default with isAlive := false } ∧
     ((HandleBlackHoleCollision bh bodies n).2.getD k default).isAlive = false) := by
  have hstepk : blackHoleCollisionStep (bh, bodies) k
      = ({ bh with
            mass := bh.mass + (bodies.getD k default).mass
            radius := bh.radius + bh.growthRate
            eventHorizonRadius :=
              2.95 * ((bh.mass + (bodies.getD k default).mass) / 1.989e30) * 1e3 },
         bodies.set k { bodies.getD k default with isAlive := false }) := by
    simp only [blackHoleCollisionStep, halive]
    rw [if_neg (by simp : ¬ (true = false))]
    rw [hpos]
    have hzero : Real.sqrt ((bh.position.x - bh.position.x) *
        (bh.position.x - bh.position.x) +
        (bh.position.y - bh.position.y) * (bh.position.y - bh.position.y) +
        (bh.position.z - bh.position.z) * (bh.position.z - bh.position.z)) = 0 := by
      simp [sub_self, Real.sqrt_zero]
    rw [if_pos (by rw [hzero]; exact lt_max_of_lt_left hrad)]
  have hdead1 : ∀ i ∈ List.range k,
      (((bh, bodies) : BlackHole × List OrbitalBody).2.getD i default).isAlive
        = false := by
    intro i hi
    exact hothers i (by have := List.mem_range.mp hi; omega)
  have hdead2 : ∀ i ∈ (List.range (n - k - 1)).map (fun x => k + 1 + x),
      ((({ bh with
            mass := bh.mass + (bodies.getD k default).mass
            radius := bh.radius + bh.growthRate
            eventHorizonRadius :=
              2.95 * ((bh.mass + (bodies.getD k default).mass) / 1.989e30) * 1e3 },
          bodies.set k { bodies.getD k default with isAlive := false }) :
            BlackHole × List OrbitalBody).2.getD i default).isAlive = false := by
    intro i hi
    rcases List.mem_map.mp hi with ⟨a, _, rfl⟩
    show ((bodies.set k _).getD (k + 1 + a) default).isAlive = false
    rw [getD_set_ne _ _ _ _ _ (by omega)]
    exact hothers _ (by omega)
  unfold HandleBlackHoleCollision
  rw [rangeSplit n k hk, List.foldl_append, List.foldl_cons,
    collisionFold_id_of_dead (List.range k) (bh, bodies) hdead1, hstepk,
    collisionFold_id_of_dead _ _ hdead2]
  refine ⟨rfl, rfl, rfl, ?_⟩
  rw [getD_set_self _ _ _ _ hklen]

/-- Claim C8: a live body located exactly at the active black hole position
(the spec scenario: fresh black hole, so zero velocity and positive radius,
and no other live body) is absorbed by one tick: it is marked dead, the black
hole mass grows by exactly the body prior mass and the black hole radius by
exactly growthRate. -/
theorem C8_absorption (sim : OrbitalSim) (k : ℕ)
    (hact : sim.blackHole.isActive = true)
    (hvel : sim.blackHole.velocity = Vector3.zero)
    (hrad : 0 < sim.blackHole.radius)
    (hk : k < sim.numBodies)
    (halive : (sim.bodies.getD k default).isAlive = true)
    (hpos : (sim.bodies.getD k default).position = sim.blackHole.position)
    (hothers : ∀ m, m ≠ k → (sim.bodies.getD m default).isAlive = false) :
    ((updateOrbitalSim sim).bodies.getD k default).isAlive = false ∧
    (updateOrbitalSim sim).blackHole.mass
      = sim.blackHole.mass + (sim.bodies.getD k default).mass ∧
    (updateOrbitalSim sim).blackHole.radius
      = sim.blackHole.radius + sim.blackHole.growthRate := by
  have hklen : k < sim.bodies.length := lt_length_of_getD_alive sim.bodies k halive
  obtain ⟨hp1, hv1, hm1, hr1, _, _, hg1⟩ := CBHA_bh_frame sim.blackHole sim.bodies
    (ComputeGravitationalAccelerations sim sim.bodies sim.numBodies) sim.numBodies
  have hselfbh1 : ComputeBlackHoleSelfAcceleration
      (ComputeBlackHoleAcceleration sim.blackHole sim.bodies
        (ComputeGravitationalAccelerations sim sim.bodies sim.numBodies)
        sim.numBodies).2 sim.bodies sim.numBodies = Vector3.zero := by
    rw [ComputeBlackHoleSelfAcceleration_congr _ sim.blackHole sim.bodies
      sim.numBodies hp1]
    exact selfAccel_zero_of sim.blackHole sim.bodies sim.numBodies k hpos hothers
  simp only [updateOrbitalSim]
  rw [if_pos hact]
  rw [hselfbh1]
  simp only [Vector3Scale_zero, Vector3Add_zero_right]
  rw [hv1, hvel]
  simp only [Vector3Scale_zero, Vector3Add_zero_right]
  rw [hp1]
  obtain ⟨km, kr, kbodies, kdead⟩ := collision_absorbs_at
    { (ComputeBlackHoleAcceleration sim.blackHole sim.bodies
        (ComputeGravitationalAccelerations sim sim.bodies sim.numBodies)
        sim.numBodies).2 with
      velocity := Vector3.zero
      position := sim.blackHole.position }
    sim.bodies sim.numBodies k hk hklen halive hpos
    (lt_of_lt_of_eq hrad hr1.symm) hothers
  have hdeadall : ∀ i ∈ List.range sim.numBodies,
      (((HandleBlackHoleCollision
          { (ComputeBlackHoleAcceleration sim.blackHole sim.bodies
              (ComputeGravitationalAccelerations sim sim.bodies sim.numBodies)
              sim.numBodies).2 with
            velocity := Vector3.zero
            position := sim.blackHole.position }
          sim.bodies sim.numBodies).2).getD i default).isAlive = false := by
    intro i _
    by_cases hik : i = k
    · subst hik
      exact kdead
    · rw [kbodies, getD_set_ne _ _ _ _ _ (fun hh => hik hh.symm)]
      exact hothers i hik
  rw [integrateFold_id_of_dead _ _ _ _ hdeadall]
  refine ⟨kdead, ?_, ?_⟩
  · rw [km]
    show (ComputeBlackHoleAcceleration sim.blackHole sim.bodies
        (ComputeGravitationalAccelerations sim sim.bodies sim.numBodies)
        sim.numBodies).2.mass + (sim.bodies.getD k default).mass
      = sim.blackHole.mass + (sim.bodies.getD k default).mass
    rw [hm1]
  · rw [kr]
    show (ComputeBlackHoleAcceleration sim.blackHole sim.bodies
        (ComputeGravitationalAccelerations sim sim.bodies sim.numBodies)
        sim.numBodies).2.radius + (ComputeBlackHoleAcceleration sim.blackHole
          sim.bodies (ComputeGravitationalAccelerations sim sim.bodies
            sim.numBodies) sim.numBodies).2.growthRate
      = sim.blackHole.radius + sim.blackHole.growthRate
    rw [hr1, hg1]

def bodyC8 : OrbitalBody :=
  { position := Vector3.zero
    velocity := Vector3.zero
    mass := 5
    radius := 1
    color := (0 : ℕ)
    isAlive := true }

def simC8 : OrbitalSim :=
  { timeStep := 1
    bodies := [bodyC8]
    numBodies := 1
    systemBodies := 1
    asteroidCount := 0
    centerRadius := 0
    blackHole :=
      { position := Vector3.zero
        velocity := Vector3.zero
        acceleration := Vector3.zero
        mass := 100
        radius := 7
        eventHorizonRadius := 1
        isActive := true
        growthRate := 3 }
    aliveBodies := 1
    config :=
      { systemType := SystemType.solar
        easterEgg := EasterEggType.none
        dispersion := DispersionType.normal
        asteroidCount := 0 } }

/-- Witness for C8 at a concrete one-body absorption scenario. -/
theorem C8_witness :
    simC8.blackHole.isActive = true ∧
    simC8.blackHole.velocity = Vector3.zero ∧
    0 < simC8.blackHole.radius ∧
    0 < simC8.numBodies ∧
    (simC8.bodies.getD 0 default).isAlive = true ∧
    (simC8.bodies.getD 0 default).position = simC8.blackHole.position ∧
    (∀ m, m ≠ 0 → (simC8.bodies.getD m default).isAlive = false) ∧
    (((updateOrbitalSim simC8).bodies.getD 0 default).isAlive = false ∧
     (updateOrbitalSim simC8).blackHole.mass
       = simC8.blackHole.mass + (simC8.bodies.getD 0 default).mass ∧
     (updateOrbitalSim simC8).blackHole.radius
       = simC8.blackHole.radius + simC8.blackHole.growthRate) := by
  have hothers : ∀ m, m ≠ 0 → (simC8.bodies.getD m default).isAlive = false := by
    intro m hm
    cases m with
    | zero => exact absurd rfl hm
    | succ m => rfl
  have hrad : (0 : ℝ) < simC8.blackHole.radius := by norm_num [simC8]
  exact ⟨rfl, rfl, hrad, by norm_num [simC8], rfl, rfl, hothers,
    C8_absorption simC8 0 rfl rfl hrad (by norm_num [simC8]) rfl rfl hothers⟩

/-! ### Claim C1 -/

theorem foldl_congr_steps {σ : Type _} (l : List ℕ) (f1 f2 : σ → ℕ → σ)
    (h : ∀ s i, i ∈ l → f1 s i = f2 s i) (s : σ) : l.foldl f1 s = l.foldl f2 s := by
  induction l generalizing s with
  | nil => rfl
  | cons a t ih =>
    rw [List.foldl_cons, List.foldl_cons, h s a (List.mem_cons_self a t)]
    exact ih (fun s' i hi => h s' i (List.mem_cons_of_mem a hi)) _

theorem systemPairStep_congr (bodies1 bodies2 : List OrbitalBody) (i j : ℕ)
    (hi : bodies1.getD i default = bodies2.getD i default)
    (hj : bodies1.getD j default = bodies2.getD j default) :
    systemPairStep bodies1 i j = systemPairStep bodies2 i j := by
  funext acc
  simp only [systemPairStep, hi, hj]

theorem starAsteroidStep_congr (sim : OrbitalSim) (bodies1 bodies2 : List OrbitalBody)
    (i : ℕ)
    (h0 : bodies1.getD 0 default = bodies2.getD 0 default)
    (hi : bodies1.getD i default = bodies2.getD i default) :
    starAsteroidStep sim bodies1 i = starAsteroidStep sim bodies2 i := by
  funext acc
  simp only [starAsteroidStep, h0, hi]

theorem planetAsteroidStep_congr (bodies1 bodies2 : List OrbitalBody) (i j : ℕ)
    (hi : bodies1.getD i default = bodies2.getD i default)
    (hj : bodies1.getD j default = bodies2.getD j default) :
    planetAsteroidStep bodies1 i j = planetAsteroidStep bodies2 i j := by
  funext acc
  simp only [planetAsteroidStep, hi, hj]

theorem starAsteroidStep_at_self (sim : OrbitalSim) (bodies : List OrbitalBody)
    (i : ℕ) (acc1 acc2 : ℕ → Vector3) (h : acc1 i = acc2 i) :
    starAsteroidStep sim bodies i acc1 i = starAsteroidStep sim bodies i acc2 i := by
  simp only [starAsteroidStep]
  split_ifs <;> simp [storeAcc, h]

theorem planetAsteroidStep_at_self (bodies : List OrbitalBody) (i j : ℕ)
    (acc1 acc2 : ℕ → Vector3) (h : acc1 j = acc2 j) :
    planetAsteroidStep bodies i j acc1 j = planetAsteroidStep bodies i j acc2 j := by
  simp only [planetAsteroidStep]
  split_ifs <;> simp [storeAcc, h]

/-- Claim C1 (amended): once the total body count exceeds 100, the pairwise
tier is cut at the hardcoded index 9, and the acceleration of a body with
index at or beyond 9 is entirely independent of the state of any other body
with index at or beyond 9: no asteroid-asteroid force is ever computed.
(When the total count is at most 100 this fails: all bodies interact
pairwise, see the counterexample.) -/
theorem C1_no_asteroid_pair_force (sim : OrbitalSim) (bodies : List OrbitalBody)
    (n i j : ℕ) (b : OrbitalBody) (hn : 100 < n) (hi : 9 ≤ i) (hj : 9 ≤ j)
    (hij : i ≠ j) :
    ComputeGravitationalAccelerations sim (bodies.set i b) n j
      = ComputeGravitationalAccelerations sim bodies n j := by
  have hagree : ∀ k, k ≠ i → (bodies.set i b).getD k default
      = bodies.getD k default :=
    fun k hk => getD_set_ne bodies i k b default (fun hh => hk hh.symm)
  simp only [ComputeGravitationalAccelerations]
  rw [if_pos hn]
  -- tier 2 produces identical acceleration buffers: it only reads indices
  -- below 9, all distinct from i
  have htier2 : ∀ acc0 : ℕ → Vector3,
      (List.range 9).foldl
        (fun acc i' =>
          if ((bodies.set i b).getD i' default).isAlive = false then acc
          else (List.range 9).foldl
            (fun a j' => if j' ≤ i' then a
              else systemPairStep (bodies.set i b) i' j' a) acc)
        acc0
      = (List.range 9).foldl
        (fun acc i' =>
          if (bodies.getD i' default).isAlive = false then acc
          else (List.range 9).foldl
            (fun a j' => if j' ≤ i' then a else systemPairStep bodies i' j' a) acc)
        acc0 := by
    intro acc0
    apply foldl_congr_steps
    intro s i' hi'
    have hi'9 : i' < 9 := List.mem_range.mp hi'
    rw [hagree i' (by omega)]
    by_cases hdead : (bodies.getD i' default).isAlive = false
    · rw [if_pos hdead, if_pos hdead]
    · rw [if_neg hdead, if_neg hdead]
      apply foldl_congr_steps
      intro s' j' hj'
      have hj'9 : j' < 9 := List.mem_range.mp hj'
      by_cases hle : j' ≤ i'
      · rw [if_pos hle, if_pos hle]
      · rw [if_neg hle, if_neg hle,
          systemPairStep_congr (bodies.set i b) bodies i' j'
            (hagree i' (by omega)) (hagree j' (by omega))]
  rw [htier2]
  -- the tier 3 gate is identical on both sides
  rw [hagree 0 (by omega)]
  -- remaining tiers: prove agreement at index j
  apply foldl_proj_agree (fun acc : ℕ → Vector3 => acc j)
  · -- tier 4 steps agree at j
    intro s1 s2 i' hi' hagreej
    have hi'9 : i' < 9 := List.mem_range.mp hi'
    by_cases h0 : i' = 0
    · rw [if_pos h0, if_pos h0]
      exact hagreej
    · rw [if_neg h0, if_neg h0, hagree i' (by omega)]
      by_cases hdead : (bodies.getD i' default).isAlive = false
      · rw [if_pos hdead, if_pos hdead]
        exact hagreej
      · rw [if_neg hdead, if_neg hdead]
        apply foldl_proj_agree (fun acc : ℕ → Vector3 => acc j)
        · intro t1 t2 j' _ hagreej'
          by_cases hlt : j' < 9
          · rw [if_pos hlt, if_pos hlt]
            exact hagreej'
          · rw [if_neg hlt, if_neg hlt]
            by_cases hjj : j' = j
            · subst hjj
              rw [planetAsteroidStep_congr (bodies.set i b) bodies i' j'
                (hagree i' (by omega)) (hagree j' (by omega))]
              exact planetAsteroidStep_at_self bodies i' j' t1 t2 hagreej'
            · rw [planetAsteroidStep_ne (bodies.set i b) i' j' j t1 (fun hh => hjj hh.symm),
                planetAsteroidStep_ne bodies i' j' j t2 (fun hh => hjj hh.symm)]
              exact hagreej'
        · exact hagreej
  · -- tier 3 (gated star pass plus easter egg) agrees at j
    by_cases hgate : 9 < n ∧ (bodies.getD 0 default).isAlive = true
    · rw [if_pos hgate, if_pos hgate]
      apply foldl_proj_agree (fun acc : ℕ → Vector3 => acc j)
      · intro s1 s2 i' _ hagreej
        by_cases hlt : i' < 9
        · rw [if_pos hlt, if_pos hlt]
          exact hagreej
        · rw [if_neg hlt, if_neg hlt]
          by_cases hii : i' = j
          · subst hii
            rw [starAsteroidStep_congr sim (bodies.set i b) bodies i'
              (hagree 0 (by omega)) (hagree i' (by omega))]
            exact starAsteroidStep_at_self sim bodies i' s1 s2 hagreej
          · rw [starAsteroidStep_ne sim (bodies.set i b) i' j s1 (fun hh => hii hh.symm),
              starAsteroidStep_ne sim bodies i' j s2 (fun hh => hii hh.symm)]
            exact hagreej
      · rfl
    · rw [if_neg hgate, if_neg hgate]

def deadC1 : OrbitalBody :=
  { position := Vector3.zero
    velocity := Vector3.zero
    mass := 1
    radius := 1
    color := (0 : ℕ)
    isAlive := false }

def ast9C1 : OrbitalBody :=
  { position := Vector3.zero
    velocity := Vector3.zero
    mass := 1
    radius := 1
    color := (0 : ℕ)
    isAlive := true }

def ast10C1 : OrbitalBody :=
  { position := { x := 1, y := 0, z := 0 }
    velocity := Vector3.zero
    mass := 1
    radius := 1
    color := (0 : ℕ)
    isAlive := true }

def bodiesC1 : List OrbitalBody := List.replicate 9 deadC1 ++ [ast9C1, ast10C1]

def simC1 : OrbitalSim :=
  { timeStep := 1
    bodies := bodiesC1
    numBodies := 11
    systemBodies := 9
    asteroidCount := 2
    centerRadius := 0
    blackHole :=
      { position := Vector3.zero
        velocity := Vector3.zero
        acceleration := Vector3.zero
        mass := 0
        radius := 0
        eventHorizonRadius := 0
        isActive := false
        growthRate := 0 }
    aliveBodies := 11
    config :=
      { systemType := SystemType.solar
        easterEgg := EasterEggType.none
        dispersion := DispersionType.normal
        asteroidCount := 2 } }

theorem bodiesC1_dead (i : ℕ) (h9 : i ≠ 9) (h10 : i ≠ 10) :
    (bodiesC1.getD i default).isAlive = false := by
  unfold bodiesC1
  rw [List.getD_eq_getElem?_getD]
  by_cases hlt : i < 9
  · rw [List.getElem?_append_left (by rw [List.length_replicate]; exact hlt),
      List.getElem?_replicate, if_pos hlt]
    rfl
  · rw [List.getElem?_eq_none
      (by rw [List.length_append, List.length_replicate]; simp; omega)]
    rfl

theorem systemPair_C1_at10 (acc : ℕ → Vector3) :
    systemPairStep bodiesC1 9 10 acc 10
      = Vector3Add (acc 10)
          (Vector3Scale { x := 1, y := 0, z := 0 }
            ((-(GRAVITATIONAL_CONSTANT / MIN_DISTANCE_CUBED)) * 1)) := by
  simp only [systemPairStep]
  rw [show bodiesC1.getD 10 default = ast10C1 from rfl,
      show bodiesC1.getD 9 default = ast9C1 from rfl]
  rw [if_neg (by simp [ast10C1] : ¬ (ast10C1.isAlive = false))]
  rw [show Vector3Subtract ast10C1.position ast9C1.position
      = { x := 1, y := 0, z := 0 } by
    norm_num [ast10C1, ast9C1, Vector3Subtract, Vector3.zero]]
  rw [show Vector3LengthSqr { x := (1 : ℝ), y := 0, z := 0 } = 1 by
    norm_num [Vector3LengthSqr], Real.sqrt_one]
  rw [if_neg (by norm_num [MIN_DISTANCE_CUBED] : ¬ (MIN_DISTANCE_CUBED < 1 * 1))]
  simp [storeAcc, ast9C1]

theorem tier4_id_when_full (bodies : List OrbitalBody) (n : ℕ) (acc : ℕ → Vector3) :
    (List.range n).foldl
      (fun acc i => if i = 0 then acc
        else if (bodies.getD i default).isAlive = false then acc
        else (List.range n).foldl
          (fun a j => if j < n then a else planetAsteroidStep bodies i j a) acc)
      acc = acc := by
  apply foldl_fix (fun _ => True) _ _ ?_ _ trivial
  intro s i' hi' _
  by_cases h0 : i' = 0
  · rw [if_pos h0]
  · rw [if_neg h0]
    by_cases hdead : (bodies.getD i' default).isAlive = false
    · rw [if_pos hdead]
    · rw [if_neg hdead]
      apply foldl_fix (fun _ => True) _ _ ?_ _ trivial
      intro a j' hj' _
      rw [if_pos (List.mem_range.mp hj')]

theorem tier2_C1_value (acc0 : ℕ → Vector3) :
    ((List.range 11).foldl
      (fun acc i' =>
        if (bodiesC1.getD i' default).isAlive = false then acc
        else (List.range 11).foldl
          (fun a j' => if j' ≤ i' then a else systemPairStep bodiesC1 i' j' a) acc)
      acc0) 10
    = Vector3Add (acc0 10)
        (Vector3Scale { x := 1, y := 0, z := 0 }
          ((-(GRAVITATIONAL_CONSTANT / MIN_DISTANCE_CUBED)) * 1)) := by
  apply foldl_range_at (fun acc : ℕ → Vector3 => acc 10)
    (fun v => Vector3Add v (Vector3Scale { x := 1, y := 0, z := 0 }
      ((-(GRAVITATIONAL_CONSTANT / MIN_DISTANCE_CUBED)) * 1)))
    _ 11 9 (by norm_num)
  · intro s i' hne
    by_cases h10 : i' = 10
    · subst h10
      rw [if_neg (by
        rw [show bodiesC1.getD 10 default = ast10C1 from rfl]
        simp [ast10C1])]
      rw [foldl_fix (fun _ => True) _ _ ?_ _ trivial]
      intro a j' hj' _
      rw [if_pos (by have := List.mem_range.mp hj'; omega)]
    · rw [if_pos (bodiesC1_dead i' hne h10)]
  · intro s
    rw [if_neg (by
      rw [show bodiesC1.getD 9 default = ast9C1 from rfl]
      simp [ast9C1])]
    apply foldl_range_at (fun acc : ℕ → Vector3 => acc 10)
      (fun v => Vector3Add v (Vector3Scale { x := 1, y := 0, z := 0 }
        ((-(GRAVITATIONAL_CONSTANT / MIN_DISTANCE_CUBED)) * 1)))
      _ 11 10 (by norm_num)
    · intro a j' hne
      by_cases hle : j' ≤ 9
      · rw [if_pos hle]
      · rw [if_neg hle]
        exact systemPairStep_ne bodiesC1 9 j' 10 a (by omega)
          (fun hh => hne hh.symm)
    · intro a
      rw [if_neg (by omega : ¬ ((10 : ℕ) ≤ 9))]
      exact systemPair_C1_at10 a

theorem tier2_C1B_preserve (acc0 : ℕ → Vector3) :
    ((List.range 11).foldl
      (fun acc i' =>
        if ((bodiesC1.set 9 deadC1).getD i' default).isAlive = false then acc
        else (List.range 11).foldl
          (fun a j' => if j' ≤ i' then a
            else systemPairStep (bodiesC1.set 9 deadC1) i' j' a) acc)
      acc0) 10 = acc0 10 := by
  apply foldl_proj_preserve (fun acc : ℕ → Vector3 => acc 10)
  intro s i' _
  by_cases h10 : i' = 10
  · subst h10
    rw [if_neg (by
      rw [getD_set_ne bodiesC1 9 10 deadC1 default (by omega),
        show bodiesC1.getD 10 default = ast10C1 from rfl]
      simp [ast10C1])]
    rw [foldl_fix (fun _ => True) _ _ ?_ _ trivial]
    intro a j' hj' _
    rw [if_pos (by have := List.mem_range.mp hj'; omega)]
  · by_cases h9 : i' = 9
    · subst h9
      rw [if_pos (by
        rw [getD_set_self bodiesC1 9 deadC1 default
          (by rw [bodiesC1, List.length_append, List.length_replicate]; simp)]
        rfl)]
    · rw [if_pos (by
        rw [getD_set_ne bodiesC1 9 i' deadC1 default (fun hh => h9 hh.symm)]
        exact bodiesC1_dead i' h9 h10)]

/-- Claim C1, counterexample: with 11 total bodies (at most 100), the
pairwise tier covers every body, so the acceleration of asteroid index 10
receives a gravitational contribution from asteroid index 9, although both
indices are at or beyond the system-body count 9: the acceleration changes
when asteroid 9 is replaced by a dead body. -/
theorem C1_counterexample :
    simC1.systemBodies = 9 ∧
    ComputeGravitationalAccelerations simC1 simC1.bodies 11 10
      ≠ ComputeGravitationalAccelerations simC1 (simC1.bodies.set 9 deadC1) 11 10 := by
  refine ⟨rfl, ?_⟩
  have hA : ComputeGravitationalAccelerations simC1 simC1.bodies 11 10
      = Vector3Add Vector3.zero
          (Vector3Scale { x := 1, y := 0, z := 0 }
            ((-(GRAVITATIONAL_CONSTANT / MIN_DISTANCE_CUBED)) * 1)) := by
    show ComputeGravitationalAccelerations simC1 bodiesC1 11 10 = _
    simp only [ComputeGravitationalAccelerations]
    rw [show (if 100 < 11 then 9 else 11) = 11 by norm_num]
    rw [if_neg (by rintro ⟨hc, _⟩; omega)]
    rw [tier4_id_when_full]
    exact tier2_C1_value _
  have hB : ComputeGravitationalAccelerations simC1 (simC1.bodies.set 9 deadC1) 11 10
      = Vector3.zero := by
    show ComputeGravitationalAccelerations simC1 (bodiesC1.set 9 deadC1) 11 10 = _
    simp only [ComputeGravitationalAccelerations]
    rw [show (if 100 < 11 then 9 else 11) = 11 by norm_num]
    rw [if_neg (by rintro ⟨hc, _⟩; omega)]
    rw [tier4_id_when_full]
    exact tier2_C1B_preserve _
  rw [hA, hB]
  intro heq
  have hx := congrArg Vector3.x heq
  simp only [Vector3Add, Vector3Scale, Vector3.zero] at hx
  rw [GRAVITATIONAL_CONSTANT, MIN_DISTANCE_CUBED] at hx
  norm_num at hx

def simC1w : OrbitalSim :=
  { timeStep := 1
    bodies := List.replicate 101 deadC1
    numBodies := 101
    systemBodies := 9
    asteroidCount := 92
    centerRadius := 0
    blackHole :=
      { position := Vector3.zero
        velocity := Vector3.zero
        acceleration := Vector3.zero
        mass := 0
        radius := 0
        eventHorizonRadius := 0
        isActive := false
        growthRate := 0 }
    aliveBodies := 101
    config :=
      { systemType := SystemType.solar
        easterEgg := EasterEggType.none
        dispersion := DispersionType.normal
        asteroidCount := 92 } }

/-- Witness for C1 (amended) at a concrete 101 body state. -/
theorem C1_witness :
    100 < 101 ∧ 9 ≤ 9 ∧ 9 ≤ 10 ∧ (9 : ℕ) ≠ 10 ∧
    ComputeGravitationalAccelerations simC1w
        ((List.replicate 101 deadC1).set 9 ast9C1) 101 10
      = ComputeGravitationalAccelerations simC1w (List.replicate 101 deadC1) 101 10 :=
  ⟨by norm_num, by norm_num, by norm_num, by norm_num,
    C1_no_asteroid_pair_force simC1w (List.replicate 101 deadC1) 101 9 10 ast9C1
      (by norm_num) (by norm_num) (by norm_num) (by norm_num)⟩

/-! ### Claim C6 -/

def starC6 : OrbitalBody :=
  { position := Vector3.zero
    velocity := Vector3.zero
    mass := 2
    radius := 1
    color := (0 : ℕ)
    isAlive := true }

def deadC6 : OrbitalBody :=
  { position := Vector3.zero
    velocity := Vector3.zero
    mass := 1
    radius := 1
    color := (0 : ℕ)
    isAlive := false }

def jupC6 : OrbitalBody :=
  { position := { x := 1e9, y := 0, z := 0 }
    velocity := Vector3.zero
    mass := 1000
    radius := 1
    color := (0 : ℕ)
    isAlive := true }

def astC6 : OrbitalBody :=
  { position := { x := 1, y := 0, z := 0 }
    velocity := Vector3.zero
    mass := 1
    radius := 1
    color := (0 : ℕ)
    isAlive := true }

def bodiesC6 : List OrbitalBody :=
  [starC6, deadC6, deadC6, deadC6, deadC6, jupC6, deadC6, deadC6, deadC6]
    ++ List.replicate 91 deadC6 ++ [astC6]

def simC6 : OrbitalSim :=
  { timeStep := 1
    bodies := bodiesC6
    numBodies := 101
    systemBodies := 9
    asteroidCount := 92
    centerRadius := 0
    blackHole :=
      { position := Vector3.zero
        velocity := Vector3.zero
        acceleration := Vector3.zero
        mass := 0
        radius := 0
        eventHorizonRadius := 0
        isActive := false
        growthRate := 0 }
    aliveBodies := 101
    config :=
      { systemType := SystemType.solar
        easterEgg := EasterEggType.jupiter1000x
        dispersion := DispersionType.normal
        asteroidCount := 92 } }

theorem bodiesC6_dead (i : ℕ) (h0 : i ≠ 0) (h5 : i ≠ 5) (h100 : i ≠ 100) :
    (bodiesC6.getD i default).isAlive = false := by
  by_cases hlt : i < 9
  · interval_cases i
    · exact absurd rfl h0
    · rfl
    · rfl
    · rfl
    · rfl
    · exact absurd rfl h5
    · rfl
    · rfl
    · rfl
  · unfold bodiesC6
    rw [List.getD_eq_getElem?_getD, List.append_assoc,
      List.getElem?_append_right (by simp; omega)]
    by_cases hmid : i < 100
    · rw [List.getElem?_append_left (by rw [List.length_replicate]; simp; omega),
        List.getElem?_replicate, if_pos (by simp; omega)]
      rfl
    · rw [List.getElem?_eq_none (by simp [List.length_replicate]; omega)]
      rfl

theorem starStep_C6_at100 (acc : ℕ → Vector3) :
    starAsteroidStep simC6 bodiesC6 100 acc 100
      = Vector3Add
          (Vector3Add (acc 100)
            (Vector3Scale { x := 1, y := 0, z := 0 }
              (-(GRAVITATIONAL_CONSTANT * 2 / MIN_DISTANCE_CUBED))))
          (Vector3Scale { x := 1, y := 0, z := 0 }
            (-(GRAVITATIONAL_CONSTANT * 2 / MIN_DISTANCE_CUBED))) := by
  have hfloor : ¬ (MIN_DISTANCE_CUBED < 1 * 1) := by norm_num [MIN_DISTANCE_CUBED]
  simp only [starAsteroidStep]
  rw [show bodiesC6.getD 100 default = astC6 from rfl,
      show bodiesC6.getD 0 default = starC6 from rfl]
  rw [if_neg (by simp [astC6] : ¬ (astC6.isAlive = false))]
  rw [show Vector3Subtract astC6.position starC6.position
      = { x := 1, y := 0, z := 0 } by
    norm_num [astC6, starC6, Vector3Subtract, Vector3.zero]]
  rw [show Vector3LengthSqr { x := (1 : ℝ), y := 0, z := 0 } = 1 by
    norm_num [Vector3LengthSqr], Real.sqrt_one]
  simp only [if_neg hfloor]
  rw [if_pos (show simC6.config.easterEgg = EasterEggType.jupiter1000x from rfl)]
  rw [if_pos (show simC6.config.systemType = SystemType.solar ∧ 5 < simC6.numBodies
    from ⟨rfl, by norm_num [simC6]⟩)]
  simp [storeAcc, starC6]

theorem planetStep_C6_5_100 (acc : ℕ → Vector3) :
    planetAsteroidStep bodiesC6 5 100 acc 100 = acc 100 := by
  simp only [planetAsteroidStep]
  rw [show bodiesC6.getD 100 default = astC6 from rfl,
      show bodiesC6.getD 5 default = jupC6 from rfl]
  rw [if_neg (by simp [astC6] : ¬ (astC6.isAlive = false))]
  rw [show Vector3Subtract astC6.position jupC6.position
      = { x := 1 - 1e9, y := 0, z := 0 } by
    norm_num [astC6, jupC6, Vector3Subtract]]
  rw [show Vector3LengthSqr { x := (1 : ℝ) - 1e9, y := 0, z := 0 }
      = (1 - 1e9) * (1 - 1e9) by norm_num [Vector3LengthSqr]]
  have hge : ¬ (((1 : ℝ) - 1e9) * (1 - 1e9) < INFLUENCE_DISTANCE_SQ) := by
    norm_num [INFLUENCE_DISTANCE_SQ]
  rw [if_neg (fun hc => hge (And.left hc)), if_neg hge]

theorem tier2_C6_preserve (acc0 : ℕ → Vector3) :
    ((List.range 9).foldl
      (fun acc i =>
        if (bodiesC6.getD i default).isAlive = false then acc
        else (List.range 9).foldl
          (fun a j => if j ≤ i then a else systemPairStep bodiesC6 i j a) acc)
      acc0) 100 = acc0 100 := by
  apply foldl_proj_preserve (fun acc : ℕ → Vector3 => acc 100)
  intro s i hi
  by_cases hdead : (bodiesC6.getD i default).isAlive = false
  · rw [if_pos hdead]
  · rw [if_neg hdead]
    apply foldl_proj_preserve (fun acc : ℕ → Vector3 => acc 100)
    intro a j hj
    by_cases hle : j ≤ i
    · rw [if_pos hle]
    · rw [if_neg hle]
      exact systemPairStep_ne bodiesC6 i j 100 a
        (by have := List.mem_range.mp hi; omega)
        (by have := List.mem_range.mp hj; omega)

theorem tier3_C6_value (acc0 : ℕ → Vector3) :
    ((List.range 101).foldl
      (fun acc i => if i < 9 then acc else starAsteroidStep simC6 bodiesC6 i acc)
      acc0) 100
    = Vector3Add
        (Vector3Add (acc0 100)
          (Vector3Scale { x := 1, y := 0, z := 0 }
            (-(GRAVITATIONAL_CONSTANT * 2 / MIN_DISTANCE_CUBED))))
        (Vector3Scale { x := 1, y := 0, z := 0 }
          (-(GRAVITATIONAL_CONSTANT * 2 / MIN_DISTANCE_CUBED))) := by
  apply foldl_range_at (fun acc : ℕ → Vector3 => acc 100)
    (fun v => Vector3Add
      (Vector3Add v
        (Vector3Scale { x := 1, y := 0, z := 0 }
          (-(GRAVITATIONAL_CONSTANT * 2 / MIN_DISTANCE_CUBED))))
      (Vector3Scale { x := 1, y := 0, z := 0 }
        (-(GRAVITATIONAL_CONSTANT * 2 / MIN_DISTANCE_CUBED))))
    _ 101 100 (by norm_num)
  · intro s i hne
    by_cases hlt : i < 9
    · rw [if_pos hlt]
    · rw [if_neg hlt]
      exact starAsteroidStep_ne simC6 bodiesC6 i 100 s (fun hh => hne hh.symm)
  · intro s
    rw [if_neg (by omega : ¬ ((100 : ℕ) < 9))]
    exact starStep_C6_at100 s

theorem tier4_C6_preserve (acc0 : ℕ → Vector3) :
    ((List.range 9).foldl
      (fun acc i =>
        if i = 0 then acc
        else if (bodiesC6.getD i default).isAlive = false then acc
        else (List.range 101).foldl
          (fun a j => if j < 9 then a else planetAsteroidStep bodiesC6 i j a) acc)
      acc0) 100 = acc0 100 := by
  apply foldl_proj_preserve (fun acc : ℕ → Vector3 => acc 100)
  intro s i hi
  by_cases h0 : i = 0
  · rw [if_pos h0]
  · rw [if_neg h0]
    by_cases hdead : (bodiesC6.getD i default).isAlive = false
    · rw [if_pos hdead]
    · have hi5 : i = 5 := by
        have hi9 : i < 9 := List.mem_range.mp hi
        by_contra hne
        exact hdead (bodiesC6_dead i h0 hne (by omega))
      subst hi5
      rw [if_neg hdead]
      apply foldl_proj_preserve (fun acc : ℕ → Vector3 => acc 100)
      intro a j _
      by_cases hlt : j < 9
      · rw [if_pos hlt]
      · rw [if_neg hlt]
        by_cases hj100 : j = 100
        · subst hj100
          exact planetStep_C6_5_100 a
        · exact planetAsteroidStep_ne bodiesC6 5 j 100 a (fun hh => hj100 hh.symm)

/-- Claim C6 fails on the code: with the Jupiter-1000x easter egg active and
a solar 101 body state whose body 5 is a live heavy planet away from the
star, the asteroid at index 100 receives the primary star contribution TWICE
(the extra pass recomputes the displacement from body 0 and uses body 0
mass), and that doubled star term differs from the body-5-sourced
contribution the claim requires. -/
theorem C6_bug_eval :
    simC6.bodies.getD 5 default = jupC6 ∧
    ComputeGravitationalAccelerations simC6 simC6.bodies 101 100
      = Vector3Add
          (Vector3Add Vector3.zero
            (Vector3Scale { x := 1, y := 0, z := 0 }
              (-(GRAVITATIONAL_CONSTANT * 2 / MIN_DISTANCE_CUBED))))
          (Vector3Scale { x := 1, y := 0, z := 0 }
            (-(GRAVITATIONAL_CONSTANT * 2 / MIN_DISTANCE_CUBED))) ∧
    Vector3Scale { x := 1, y := 0, z := 0 }
        (-(GRAVITATIONAL_CONSTANT * 2 / MIN_DISTANCE_CUBED))
      ≠ Vector3Scale (Vector3Subtract astC6.position jupC6.position)
          (-(GRAVITATIONAL_CONSTANT * jupC6.mass / MIN_DISTANCE_CUBED)) := by
  refine ⟨rfl, ?_, ?_⟩
  · show ComputeGravitationalAccelerations simC6 bodiesC6 101 100 = _
    simp only [ComputeGravitationalAccelerations]
    rw [show (if 100 < 101 then 9 else 101) = 9 by norm_num]
    rw [if_pos (show 9 < 101 ∧ (bodiesC6.getD 0 default).isAlive = true
      from ⟨by norm_num, rfl⟩)]
    rw [tier4_C6_preserve, tier3_C6_value, tier2_C6_preserve]
  · intro heq
    have hx := congrArg Vector3.x heq
    norm_num [Vector3Scale, Vector3Subtract, astC6, jupC6,
      GRAVITATIONAL_CONSTANT, MIN_DISTANCE_CUBED] at hx

/-! ### Claim C9 -/

/-- The force accumulator ignores the simulation record except for its
configuration and body count, which a bodies-only update leaves intact. -/
theorem CGA_sim_bodies_irrel (sim : OrbitalSim) (X bodies : List OrbitalBody)
    (n : ℕ) :
    ComputeGravitationalAccelerations { sim with bodies := X } bodies n
      = ComputeGravitationalAccelerations sim bodies n := rfl

/-- The force accumulator cannot distinguish two body lists that agree
everywhere except at one index holding a dead body in both. -/
theorem CGA_agreeExcept (sim : OrbitalSim) (bodies1 bodies2 : List OrbitalBody)
    (n d : ℕ)
    (hag : ∀ k, k ≠ d → bodies1.getD k default = bodies2.getD k default)
    (hd1 : (bodies1.getD d default).isAlive = false)
    (hd2 : (bodies2.getD d default).isAlive = false) :
    ComputeGravitationalAccelerations sim bodies1 n
      = ComputeGravitationalAccelerations sim bodies2 n := by
  simp only [ComputeGravitationalAccelerations]
  have houter : ∀ (sb : ℕ) (acc0 : ℕ → Vector3),
      (List.range sb).foldl
        (fun acc i =>
          if (bodies1.getD i default).isAlive = false then acc
          else (List.range sb).foldl
            (fun a j => if j ≤ i then a else systemPairStep bodies1 i j a) acc)
        acc0
      = (List.range sb).foldl
        (fun acc i =>
          if (bodies2.getD i default).isAlive = false then acc
          else (List.range sb).foldl
            (fun a j => if j ≤ i then a else systemPairStep bodies2 i j a) acc)
        acc0 := by
    intro sb acc0
    apply foldl_congr_steps
    intro s i _
    by_cases hid : i = d
    · subst hid
      rw [if_pos hd1, if_pos hd2]
    · rw [hag i hid]
      by_cases hdead : (bodies2.getD i default).isAlive = false
      · rw [if_pos hdead, if_pos hdead]
      · rw [if_neg hdead, if_neg hdead]
        apply foldl_congr_steps
        intro a j _
        by_cases hle : j ≤ i
        · rw [if_pos hle, if_pos hle]
        · rw [if_neg hle, if_neg hle]
          by_cases hjd : j = d
          · subst hjd
            rw [systemPairStep_dead_j bodies1 i j a hd1,
              systemPairStep_dead_j bodies2 i j a hd2]
          · rw [systemPairStep_congr bodies1 bodies2 i j (hag i hid) (hag j hjd)]
  rw [houter]
  have htier3 : ∀ acc1 : ℕ → Vector3,
      (if (if 100 < n then 9 else n) < n ∧ (bodies1.getD 0 default).isAlive = true
        then (List.range n).foldl
          (fun acc i => if i < (if 100 < n then 9 else n) then acc
            else starAsteroidStep sim bodies1 i acc) acc1
        else acc1)
      = (if (if 100 < n then 9 else n) < n ∧ (bodies2.getD 0 default).isAlive = true
        then (List.range n).foldl
          (fun acc i => if i < (if 100 < n then 9 else n) then acc
            else starAsteroidStep sim bodies2 i acc) acc1
        else acc1) := by
    intro acc1
    by_cases hd0 : d = 0
    · subst hd0
      rw [if_neg (fun hc => by rw [hd1] at hc; exact Bool.noConfusion hc.2),
        if_neg (fun hc => by rw [hd2] at hc; exact Bool.noConfusion hc.2)]
    · rw [hag 0 (fun hh => hd0 hh.symm)]
      by_cases hgate : (if 100 < n then 9 else n) < n ∧
          (bodies2.getD 0 default).isAlive = true
      · rw [if_pos hgate, if_pos hgate]
        apply foldl_congr_steps
        intro s i _
        by_cases hlt : i < (if 100 < n then 9 else n)
        · rw [if_pos hlt, if_pos hlt]
        · rw [if_neg hlt, if_neg hlt]
          by_cases hid : i = d
          · subst hid
            rw [starAsteroidStep_dead sim bodies1 i s hd1,
              starAsteroidStep_dead sim bodies2 i s hd2]
          · rw [starAsteroidStep_congr sim bodies1 bodies2 i
              (hag 0 (fun hh => hd0 hh.symm)) (hag i hid)]
      · rw [if_neg hgate, if_neg hgate]
  rw [htier3]
  apply foldl_congr_steps
  intro s i _
  by_cases h0 : i = 0
  · rw [if_pos h0, if_pos h0]
  · rw [if_neg h0, if_neg h0]
    by_cases hid : i = d
    · subst hid
      rw [if_pos hd1, if_pos hd2]
    · rw [hag i hid]
      by_cases hdead : (bodies2.getD i default).isAlive = false
      · rw [if_pos hdead, if_pos hdead]
      · rw [if_neg hdead, if_neg hdead]
        apply foldl_congr_steps
        intro a j _
        by_cases hlt : j < (if 100 < n then 9 else n)
        · rw [if_pos hlt, if_pos hlt]
        · rw [if_neg hlt, if_neg hlt]
          by_cases hjd : j = d
          · subst hjd
            rw [planetAsteroidStep_dead_j bodies1 i j a hd1,
              planetAsteroidStep_dead_j bodies2 i j a hd2]
          · rw [planetAsteroidStep_congr bodies1 bodies2 i j (hag i hid)
              (hag j hjd)]

/-- The black hole force pass cannot distinguish two body lists that agree
everywhere except at one index holding a dead body in both. -/
theorem CBHA_agreeExcept (bh : BlackHole) (bodies1 bodies2 : List OrbitalBody)
    (acc : ℕ → Vector3) (n d : ℕ)
    (hag : ∀ k, k ≠ d → bodies1.getD k default = bodies2.getD k default)
    (hd1 : (bodies1.getD d default).isAlive = false)
    (hd2 : (bodies2.getD d default).isAlive = false) :
    ComputeBlackHoleAcceleration bh bodies1 acc n
      = ComputeBlackHoleAcceleration bh bodies2 acc n := by
  unfold ComputeBlackHoleAcceleration
  apply foldl_congr_steps
  intro s i _
  by_cases hid : i = d
  · subst hid
    rw [blackHoleForceStep_dead bodies1 s i hd1,
      blackHoleForceStep_dead bodies2 s i hd2]
  · simp only [blackHoleForceStep, hag i hid]

/-- The black hole self acceleration cannot distinguish two body lists that
agree everywhere except at one index holding a dead body in both. -/
theorem CBHSA_agreeExcept (bh : BlackHole) (bodies1 bodies2 : List OrbitalBody)
    (n d : ℕ)
    (hag : ∀ k, k ≠ d → bodies1.getD k default = bodies2.getD k default)
    (hd1 : (bodies1.getD d default).isAlive = false)
    (hd2 : (bodies2.getD d default).isAlive = false) :
    ComputeBlackHoleSelfAcceleration bh bodies1 n
      = ComputeBlackHoleSelfAcceleration bh bodies2 n := by
  unfold ComputeBlackHoleSelfAcceleration
  apply foldl_congr_steps
  intro s i _
  by_cases hid : i = d
  · subst hid
    rw [blackHoleSelfStep_dead bh bodies1 s i hd1,
      blackHoleSelfStep_dead bh bodies2 s i hd2]
  · simp only [blackHoleSelfStep, hag i hid]

/-- The collision pass, run on two states with equal black holes and body
lists agreeing except at a dead index, produces equal black holes and body
lists that still agree except at that index. -/
theorem collisionFold_agreeExcept (l : List ℕ) (d : ℕ)
    (st1 st2 : BlackHole × List OrbitalBody)
    (hbh : st1.1 = st2.1) (hlen : st1.2.length = st2.2.length)
    (hag : ∀ k, k ≠ d → st1.2.getD k default = st2.2.getD k default)
    (hd1 : (st1.2.getD d default).isAlive = false)
    (hd2 : (st2.2.getD d default).isAlive = false) :
    ((l.foldl blackHoleCollisionStep st1).1 = (l.foldl blackHoleCollisionStep st2).1 ∧
     (l.foldl blackHoleCollisionStep st1).2.length
        = (l.foldl blackHoleCollisionStep st2).2.length ∧
     (∀ k, k ≠ d → (l.foldl blackHoleCollisionStep st1).2.getD k default
        = (l.foldl blackHoleCollisionStep st2).2.getD k default) ∧
     ((l.foldl blackHoleCollisionStep st1).2.getD d default).isAlive = false ∧
     ((l.foldl blackHoleCollisionStep st2).2.getD d default).isAlive = false) := by
  apply foldl_rel (fun s1 s2 =>
    s1.1 = s2.1 ∧ s1.2.length = s2.2.length ∧
    (∀ k, k ≠ d → s1.2.getD k default = s2.2.getD k default) ∧
    (s1.2.getD d default).isAlive = false ∧
    (s2.2.getD d default).isAlive = false) l _ _ ?_ st1 st2
    ⟨hbh, hlen, hag, hd1, hd2⟩
  rintro s1 s2 i _ ⟨rbh, rlen, rag, rd1, rd2⟩
  by_cases hid : i = d
  · subst hid
    rw [blackHoleCollisionStep_dead s1 i rd1, blackHoleCollisionStep_dead s2 i rd2]
    exact ⟨rbh, rlen, rag, rd1, rd2⟩
  · have hgi := rag i hid
    simp only [blackHoleCollisionStep, hgi, rbh]
    split_ifs with h1 h2
    · exact ⟨rbh, rlen, rag, rd1, rd2⟩
    · refine ⟨rfl, by rw [List.length_set, List.length_set, rlen], ?_, ?_, ?_⟩
      · intro k hk
        by_cases hki : k = i
        · subst hki
          by_cases hklen : k < s2.2.length
          · rw [getD_set_self s1.2 k _ default (by rw [rlen]; exact hklen),
              getD_set_self s2.2 k _ default hklen]
          · rw [List.set_eq_of_length_le (by rw [rlen]; exact le_of_not_lt hklen),
              List.set_eq_of_length_le (le_of_not_lt hklen)]
            exact hgi
        · rw [getD_set_ne s1.2 i k _ default (fun hh => hki hh.symm),
            getD_set_ne s2.2 i k _ default (fun hh => hki hh.symm)]
          exact rag k hk
      · rw [getD_set_ne s1.2 i d _ default (fun hh => hid hh)]
        exact rd1
      · rw [getD_set_ne s2.2 i d _ default (fun hh => hid hh)]
        exact rd2
    · exact ⟨rbh, rlen, rag, rd1, rd2⟩

/-- The integration pass, run with one acceleration buffer on two body lists
agreeing except at a dead index, keeps them agreeing except at that index. -/
theorem integrateStep_length (dt : ℝ) (acc : ℕ → Vector3)
    (bodies : List OrbitalBody) (i : ℕ) :
    (integrateStep dt acc bodies i).length = bodies.length := by
  simp only [integrateStep]
  split_ifs
  · rfl
  · exact List.length_set bodies i _

theorem integrateFold_agreeExcept (dt : ℝ) (acc : ℕ → Vector3) (l : List ℕ)
    (d : ℕ) (b1 b2 : List OrbitalBody)
    (hlen : b1.length = b2.length)
    (hag : ∀ k, k ≠ d → b1.getD k default = b2.getD k default) :
    ((l.foldl (integrateStep dt acc) b1).length
        = (l.foldl (integrateStep dt acc) b2).length ∧
     (∀ k, k ≠ d → (l.foldl (integrateStep dt acc) b1).getD k default
        = (l.foldl (integrateStep dt acc) b2).getD k default)) := by
  apply foldl_rel (fun s1 s2 : List OrbitalBody =>
    s1.length = s2.length ∧
    (∀ k, k ≠ d → s1.getD k default = s2.getD k default)) l _ _ ?_ b1 b2 ?_
  · rintro s1 s2 i _ ⟨rlen, rag⟩
    by_cases hid : i = d
    · subst hid
      constructor
      · rw [integrateStep_length, integrateStep_length, rlen]
      · intro k hk
        rw [integrateStep_getD_ne dt acc s1 i k hk,
          integrateStep_getD_ne dt acc s2 i k hk]
        exact rag k hk
    · have hgi := rag i hid
      simp only [integrateStep, hgi]
      split_ifs with h1
      · exact ⟨rlen, rag⟩
      · refine ⟨by rw [List.length_set, List.length_set, rlen], ?_⟩
        intro k hk
        by_cases hki : k = i
        · subst hki
          by_cases hklen : k < s2.length
          · rw [getD_set_self s1 k _ default (by rw [rlen]; exact hklen),
              getD_set_self s2 k _ default hklen]
          · rw [List.set_eq_of_length_le (by rw [rlen]; exact le_of_not_lt hklen),
              List.set_eq_of_length_le (le_of_not_lt hklen)]
            exact hgi
        · rw [getD_set_ne s1 i k _ default (fun hh => hki hh.symm),
            getD_set_ne s2 i k _ default (fun hh => hki hh.symm)]
          exact rag k hk
  · exact ⟨hlen, hag⟩

theorem collisionFold_getD_dead (l : List ℕ) (st : BlackHole × List OrbitalBody)
    (d : ℕ) (hd : (st.2.getD d default).isAlive = false) :
    (l.foldl blackHoleCollisionStep st).2.getD d default = st.2.getD d default := by
  apply foldl_inv (fun s => s.2.getD d default = st.2.getD d default) l _ ?_ st rfl
  intro s i _ hP
  by_cases hid : i = d
  · subst hid
    rw [blackHoleCollisionStep_dead s i (by rw [hP]; exact hd)]
    exact hP
  · rw [blackHoleCollisionStep_getD_ne s i d (fun hh => hid hh.symm)]
    exact hP

theorem HBHC_getD_dead (bh : BlackHole) (bodies : List OrbitalBody) (n d : ℕ)
    (hd : (bodies.getD d default).isAlive = false) :
    (HandleBlackHoleCollision bh bodies n).2.getD d default
      = bodies.getD d default :=
  collisionFold_getD_dead (List.range n) (bh, bodies) d hd

theorem integrateFold_getD_dead (dt : ℝ) (acc : ℕ → Vector3) (l : List ℕ)
    (bodies : List OrbitalBody) (d : ℕ)
    (hd : (bodies.getD d default).isAlive = false) :
    (l.foldl (integrateStep dt acc) bodies).getD d default
      = bodies.getD d default := by
  apply foldl_inv (fun s => s.getD d default = bodies.getD d default) l _ ?_ bodies rfl
  intro s i _ hP
  by_cases hid : i = d
  · subst hid
    rw [integrateStep_dead dt acc s i (by rw [hP]; exact hd)]
    exact hP
  · rw [integrateStep_getD_ne dt acc s i d (fun hh => hid hh.symm)]
    exact hP

/-- Claim C9: once a body is dead, a tick leaves its whole record (position,
velocity, everything) unchanged, and it contributes zero force to everything
else: replacing the dead record by any other dead record changes neither the
post-tick state of any other body nor the post-tick black hole. -/
theorem C9_dead_body_inert (sim : OrbitalSim) (d j : ℕ) (b : OrbitalBody)
    (hd : (sim.bodies.getD d default).isAlive = false)
    (hb : b.isAlive = false) (hj : j ≠ d) :
    ((updateOrbitalSim sim).bodies.getD d default = sim.bodies.getD d default) ∧
    ((updateOrbitalSim { sim with bodies := sim.bodies.set d b }).bodies.getD j default
       = (updateOrbitalSim sim).bodies.getD j default) ∧
    ((updateOrbitalSim { sim with bodies := sim.bodies.set d b }).blackHole
       = (updateOrbitalSim sim).blackHole) := by
  have hdead2 : ((sim.bodies.set d b).getD d default).isAlive = false := by
    by_cases hlen : d < sim.bodies.length
    · rw [getD_set_self sim.bodies d b default hlen]
      exact hb
    · rw [List.set_eq_of_length_le (le_of_not_lt hlen)]
      exact hd
  have hag : ∀ k, k ≠ d →
      (sim.bodies.set d b).getD k default = sim.bodies.getD k default :=
    fun k hk => getD_set_ne sim.bodies d k b default (fun hh => hk hh.symm)
  have hlen2 : (sim.bodies.set d b).length = sim.bodies.length :=
    List.length_set sim.bodies d b
  have haccEq : ComputeGravitationalAccelerations sim (sim.bodies.set d b)
      sim.numBodies = ComputeGravitationalAccelerations sim sim.bodies sim.numBodies :=
    CGA_agreeExcept sim _ _ sim.numBodies d hag hdead2 hd
  have hpart1 : (updateOrbitalSim sim).bodies.getD d default
      = sim.bodies.getD d default := by
    have hdc : ∀ bh : BlackHole,
        (HandleBlackHoleCollision bh sim.bodies sim.numBodies).2.getD d default
          = sim.bodies.getD d default :=
      fun bh => HBHC_getD_dead bh sim.bodies sim.numBodies d hd
    simp only [updateOrbitalSim]
    split_ifs with hact
    · refine Eq.trans (integrateFold_getD_dead _ _ _ _ d ?_) ?_
      · rw [hdc]
        exact hd
      · exact hdc _
    · exact integrateFold_getD_dead _ _ _ _ d hd
  have hcoll : ∀ bh : BlackHole,
      (((List.range sim.numBodies).foldl blackHoleCollisionStep
          (bh, sim.bodies.set d b)).1
        = ((List.range sim.numBodies).foldl blackHoleCollisionStep
          (bh, sim.bodies)).1 ∧
       ((List.range sim.numBodies).foldl blackHoleCollisionStep
          (bh, sim.bodies.set d b)).2.length
        = ((List.range sim.numBodies).foldl blackHoleCollisionStep
          (bh, sim.bodies)).2.length ∧
       (∀ k, k ≠ d →
        ((List.range sim.numBodies).foldl blackHoleCollisionStep
          (bh, sim.bodies.set d b)).2.getD k default
          = ((List.range sim.numBodies).foldl blackHoleCollisionStep
            (bh, sim.bodies)).2.getD k default) ∧
       (((List.range sim.numBodies).foldl blackHoleCollisionStep
          (bh, sim.bodies.set d b)).2.getD d default).isAlive = false ∧
       (((List.range sim.numBodies).foldl blackHoleCollisionStep
          (bh, sim.bodies)).2.getD d default).isAlive = false) :=
    fun bh => collisionFold_agreeExcept (List.range sim.numBodies) d
      (bh, sim.bodies.set d b) (bh, sim.bodies) rfl hlen2 hag hdead2 hd
  refine ⟨hpart1, ?_⟩
  simp only [updateOrbitalSim]
  split_ifs with hact
  · rw [CGA_sim_bodies_irrel, haccEq]
    rw [CBHA_agreeExcept sim.blackHole (sim.bodies.set d b) sim.bodies
      (ComputeGravitationalAccelerations sim sim.bodies sim.numBodies)
      sim.numBodies d hag hdead2 hd]
    rw [CBHSA_agreeExcept
      (ComputeBlackHoleAcceleration sim.blackHole sim.bodies
        (ComputeGravitationalAccelerations sim sim.bodies sim.numBodies)
        sim.numBodies).2
      (sim.bodies.set d b) sim.bodies sim.numBodies d hag hdead2 hd]
    constructor
    · exact (integrateFold_agreeExcept sim.timeStep
        (ComputeBlackHoleAcceleration sim.blackHole sim.bodies
          (ComputeGravitationalAccelerations sim sim.bodies sim.numBodies)
          sim.numBodies).1
        (List.range sim.numBodies) d _ _
        ((hcoll _).2.1) ((hcoll _).2.2.1)).2 j hj
    · exact (hcoll _).1
  · rw [CGA_sim_bodies_irrel, haccEq]
    exact ⟨(integrateFold_agreeExcept sim.timeStep
      (ComputeGravitationalAccelerations sim sim.bodies sim.numBodies)
      (List.range sim.numBodies) d _ _ hlen2 hag).2 j hj, rfl⟩

def deadC9 : OrbitalBody :=
  { position := Vector3.zero
    velocity := Vector3.zero
    mass := 2
    radius := 1
    color := (0 : ℕ)
    isAlive := false }

def deadC9b : OrbitalBody :=
  { position := { x := 5, y := 0, z := 0 }
    velocity := { x := 1, y := 1, z := 1 }
    mass := 9
    radius := 4
    color := (0 : ℕ)
    isAlive := false }

def liveC9 : OrbitalBody :=
  { position := { x := 1, y := 0, z := 0 }
    velocity := Vector3.zero
    mass := 1
    radius := 1
    color := (0 : ℕ)
    isAlive := true }

def simC9 : OrbitalSim :=
  { timeStep := 1
    bodies := [deadC9, liveC9]
    numBodies := 2
    systemBodies := 2
    asteroidCount := 0
    centerRadius := 0
    blackHole :=
      { position := Vector3.zero
        velocity := Vector3.zero
        acceleration := Vector3.zero
        mass := 0
        radius := 0
        eventHorizonRadius := 0
        isActive := false
        growthRate := 0 }
    aliveBodies := 2
    config :=
      { systemType := SystemType.solar
        easterEgg := EasterEggType.none
        dispersion := DispersionType.normal
        asteroidCount := 0 } }

/-- Witness for C9 at a concrete two-body state with a dead body. -/
theorem C9_witness :
    (simC9.bodies.getD 0 default).isAlive = false ∧
    deadC9b.isAlive = false ∧
    (1 : ℕ) ≠ 0 ∧
    (((updateOrbitalSim simC9).bodies.getD 0 default = simC9.bodies.getD 0 default) ∧
     ((updateOrbitalSim
          { simC9 with bodies := simC9.bodies.set 0 deadC9b }).bodies.getD 1 default
        = (updateOrbitalSim simC9).bodies.getD 1 default) ∧
     ((updateOrbitalSim { simC9 with bodies := simC9.bodies.set 0 deadC9b }).blackHole
        = (updateOrbitalSim simC9).blackHole)) :=
  ⟨rfl, rfl, by norm_num,
    C9_dead_body_inert simC9 0 1 deadC9b rfl rfl (by norm_num)⟩

end

end OrbitalSimModel
